import Mathlib

/-!
Verification of the SVG metrics & dimension-annotation engine of
`watamovie/webclass-todo` against its specification.

The development shallowly embeds the relevant JavaScript functions over
exact rationals (`ℚ`); real-valued parts of the code (`Math.sqrt`,
`Math.pow(_, 2.4)`) are embedded over `ℝ`.  Browser primitives
(`DOMParser`, `getBBox`) are modelled as explicit inputs: a parse result is
either a parser-error document or an element tree, and each element carries
the bounding box the browser would report for it (`none` models a
`getBBox` call that throws).
-/

set_option maxRecDepth 4096

/-! ## Character-list based string primitives

The byte-position based `String` methods of the standard library do not
reduce inside the kernel, so the JS string methods are modelled directly
over the character list of the string. -/

/-- JS `toLowerCase` (character by character). -/
def strToLower (s : String) : String :=
  String.mk (s.data.map Char.toLower)

/-- JS `trim`. -/
def strTrim (s : String) : String :=
  String.mk (((s.data.dropWhile Char.isWhitespace).reverse.dropWhile Char.isWhitespace).reverse)

/-- JS `startsWith`. -/
def strStartsWith (s pat : String) : Bool :=
  pat.data.isPrefixOf s.data

/-- JS `endsWith`. -/
def strEndsWith (s pat : String) : Bool :=
  pat.data.reverse.isPrefixOf s.data.reverse

/-- JS `slice(n)` on a string. -/
def strDrop (s : String) (n : ℕ) : String :=
  String.mk (s.data.drop n)

/-- Split a character list at every occurrence of a separator, keeping
empty fields (JS `split(sep)` with a one-character separator). -/
def splitCharList (sep : Char) : List Char → List (List Char)
  | [] => [[]]
  | c :: rest =>
      if c = sep then [] :: splitCharList sep rest
      else
        match splitCharList sep rest with
        | [] => [[c]]
        | f :: fs => (c :: f) :: fs

/-- JS `s.split(sep)` for a one-character separator. -/
def splitOnChar (sep : Char) (s : String) : List String :=
  (splitCharList sep s.data).map String.mk

/-! ## JavaScript number parsing -/

/-- Numeric value of a list of decimal digit characters. -/
def digitsVal (cs : List Char) : ℕ :=
  cs.foldl (fun n c => n * 10 + (c.toNat - '0'.toNat)) 0

/-- Mantissa value of `intPart.fracPart`. -/
def mantissaVal (intPart fracPart : List Char) : ℚ :=
  (digitsVal intPart : ℚ) + (digitsVal fracPart : ℚ) / 10 ^ fracPart.length

/-- JS `parseFloat`: skip leading whitespace, parse the longest numeric
prefix `[+-]? digits ['.' digits] [e[+-]digits]`; `none` models `NaN`.
(The `Infinity` literal is not modelled; every numeral parses to a finite
rational, so `Number.isFinite` checks on the result are modelled by
`Option.isSome`.) -/
def jsParseFloat (s : String) : Option ℚ :=
  let cs := s.data.dropWhile (·.isWhitespace)
  let (sign, cs) :=
    match cs with
    | '-' :: rest => ((-1 : ℚ), rest)
    | '+' :: rest => ((1 : ℚ), rest)
    | _ => ((1 : ℚ), cs)
  let intPart := cs.takeWhile (·.isDigit)
  let cs := cs.dropWhile (·.isDigit)
  let (fracPart, cs) : List Char × List Char :=
    match cs with
    | '.' :: rest => (rest.takeWhile (·.isDigit), rest.dropWhile (·.isDigit))
    | _ => ([], cs)
  if intPart.isEmpty && fracPart.isEmpty then none
  else
    let mant := sign * mantissaVal intPart fracPart
    match cs with
    | 'e' :: rest => some (mant * 10 ^ expVal rest)
    | 'E' :: rest => some (mant * 10 ^ expVal rest)
    | _ => some mant
where
  /-- Exponent suffix value; a malformed exponent contributes `0`
  (JS leaves it unconsumed). -/
  expVal (cs : List Char) : ℤ :=
    match cs with
    | '-' :: rest =>
        if (rest.takeWhile (·.isDigit)).isEmpty then 0
        else -(digitsVal (rest.takeWhile (·.isDigit)) : ℤ)
    | '+' :: rest =>
        if (rest.takeWhile (·.isDigit)).isEmpty then 0
        else (digitsVal (rest.takeWhile (·.isDigit)) : ℤ)
    | _ =>
        if (cs.takeWhile (·.isDigit)).isEmpty then 0
        else (digitsVal (cs.takeWhile (·.isDigit)) : ℤ)

/-- JS truthiness for an optional number: `undefined`, `0` (and `NaN`,
which the parsers model as `none`) are falsy. -/
def truthyNum (o : Option ℚ) : Bool :=
  match o with
  | none => false
  | some q => !(q == 0)

/-- The unsigned core of a regex numeral match anchored at the start:
a greedy digit run, then an optional fraction taken only when at least
one digit follows the dot (the engine backtracks over a bare dot). -/
def numAt (sign : ℚ) (cs : List Char) : Option ℚ :=
  let intPart := cs.takeWhile (·.isDigit)
  let rest0 := cs.dropWhile (·.isDigit)
  if rest0.head? = some '.' then
    let fracPart := rest0.tail.takeWhile (·.isDigit)
    if fracPart.isEmpty then
      if intPart.isEmpty then none else some (sign * mantissaVal intPart [])
    else some (sign * mantissaVal intPart fracPart)
  else if intPart.isEmpty then none else some (sign * mantissaVal intPart [])

/-- Attempt a `(-?\d*\.?\d+)` match anchored at the start of the list. -/
def tryAt (cs : List Char) : Option ℚ :=
  if cs.head? = some '-' then numAt (-1) cs.tail else numAt 1 cs

/-- First match of the part_003 regex `(-?\d*\.?\d+)` inside a character
list, evaluated by `parseFloat`; follows the regex engine's greedy
backtracking. -/
def matchNumFrom : List Char → Option ℚ
  | [] => none
  | c :: rest =>
    match tryAt (c :: rest) with
    | some q => some q
    | none => matchNumFrom rest

/-- part_003 `parseLength`: falsy input is `undefined`; otherwise the
first `(-?\d*\.?\d+)` match is parsed (always finite). -/
def parseLength (value : Option String) : Option ℚ :=
  match value with
  | none => none
  | some s => if s = "" then none else matchNumFrom s.data

/-- First match of the part_004 regex `-?\d+(?:\.\d+)?` (at least one
integer digit required), evaluated by `parseFloat`. -/
def matchNumFrom4 : List Char → Option ℚ
  | [] => none
  | c :: rest =>
    match tryAt4 (c :: rest) with
    | some q => some q
    | none => matchNumFrom4 rest
where
  /-- Attempt a match anchored at the start of the list. -/
  tryAt4 (cs : List Char) : Option ℚ :=
    let (sign, cs) :=
      match cs with
      | '-' :: rest => ((-1 : ℚ), rest)
      | _ => ((1 : ℚ), cs)
    let intPart := cs.takeWhile (·.isDigit)
    let cs := cs.dropWhile (·.isDigit)
    if intPart.isEmpty then none
    else
      match cs with
      | '.' :: rest =>
          let fracPart := rest.takeWhile (·.isDigit)
          if fracPart.isEmpty then some (sign * mantissaVal intPart [])
          else some (sign * mantissaVal intPart fracPart)
      | _ => some (sign * mantissaVal intPart [])

/-- part_004 `parseLength(raw, fallback)`: falsy input or no regex match
yields the fallback. -/
def parseLength4 (raw : Option String) (fallback : ℚ) : ℚ :=
  match raw with
  | none => fallback
  | some s =>
      if s = "" then fallback
      else
        match matchNumFrom4 s.data with
        | some v => v
        | none => fallback

/-- SvgTools `parseNumeric`: trim, then `parseFloat` with a finiteness
check; `none` models `NaN`. -/
def parseNumericTools (value : Option String) : Option ℚ :=
  match value with
  | none => none
  | some s =>
      let trimmed := strTrim s
      if trimmed = "" then none else jsParseFloat trimmed

/-- part_004 `parseNumeric` (string case): trim, reject empty, replace
every comma by a dot, then `parseFloat`; `none` models `null`/`NaN`. -/
def parseNumeric4 (value : String) : Option ℚ :=
  let trimmed := strTrim value
  if trimmed = "" then none
  else jsParseFloat (String.mk (trimmed.data.map fun c => if c = ',' then '.' else c))

/-! ## String splitting as in JS `String.prototype.split` -/

/-- Split on maximal runs of separator characters, keeping the empty
fields that JS `split` produces at the boundaries. -/
def splitRuns (p : Char → Bool) : List Char → List (List Char)
  | [] => [[]]
  | c :: rest =>
      if p c then
        [] :: splitRuns p (rest.dropWhile p)
      else
        match splitRuns p rest with
        | [] => [[c]]
        | f :: fs => (c :: f) :: fs
termination_by cs => cs.length
decreasing_by
  · simp only [List.length_cons]
    exact Nat.lt_succ_of_le (List.dropWhile_suffix p).sublist.length_le
  · simp

/-- JS `s.split(/\s+/)`. -/
def splitWs (s : String) : List String :=
  (splitRuns (·.isWhitespace) s.data).map String.mk

/-- JS `s.split(/[ ,]+/)`. -/
def splitSpaceComma (s : String) : List String :=
  (splitRuns (fun c => c == ' ' || c == ',') s.data).map String.mk

/-! ## Number-to-string formatting (JS semantics for the values reached) -/

/-- Decimal digits of a natural number. -/
def natDigits (n : ℕ) : String :=
  Nat.toDigits 10 n |>.asString

/-- Render a rational exactly in decimal when its denominator divides a
power of ten (every value the app prints does); integral values print
without a fractional part, as JS number-to-string does. -/
def qToString (q : ℚ) : String :=
  let sign := if q < 0 then "-" else ""
  let n := q.num.natAbs
  let d := q.den
  if d = 1 then sign ++ natDigits n
  else
    match (List.range 21).find? (fun k => d ∣ 10 ^ k) with
    | some k =>
        let scaled := n * 10 ^ k / d
        let ip := scaled / 10 ^ k
        let fp := scaled % 10 ^ k
        let fpStr := natDigits fp
        let fpPad := String.mk (List.replicate (k - fpStr.length) '0') ++ fpStr
        sign ++ natDigits ip ++ "." ++ String.mk (fpPad.data.reverse.dropWhile (· = '0')).reverse
    | none => sign ++ natDigits n ++ "/" ++ natDigits d

/-- JS `Number.prototype.toFixed(f)`: round to `f` digits picking the
larger candidate on ties, then print with exactly `f` decimals. -/
def toFixedStr (f : ℕ) (q : ℚ) : String :=
  let n : ℤ := ⌊q * 10 ^ f + 1 / 2⌋
  let sign := if n < 0 then "-" else ""
  let m := n.natAbs
  if f = 0 then sign ++ natDigits m
  else
    let base := 10 ^ f
    let fpStr := natDigits (m % base)
    let fpPad := String.mk (List.replicate (f - fpStr.length) '0') ++ fpStr
    sign ++ natDigits (m / base) ++ "." ++ fpPad

/-- The part_003 strip `replace(/\.0+$/, "").replace(/(\.\d*?)0+$/, "$1")`:
when the string contains a dot, drop trailing zeros, then a trailing
dot. -/
def stripTrailingZeros (s : String) : String :=
  if s.data.contains '.' then
    let r := s.data.reverse.dropWhile (· = '0')
    match r with
    | '.' :: rest => String.mk rest.reverse
    | _ => String.mk r.reverse
  else s

/-- part_003 `formatNumberForInput` (PRECISION_DIGITS = 2). -/
def formatNumberForInput (q : ℚ) : String :=
  stripTrailingZeros (toFixedStr 2 q)

/-- The part_004 strip `replace(/\.0+$/, "").replace(/\.$/, "")`: the first
regex only fires when every fractional digit is zero; the second removes a
then-dangling dot (which `toFixed` never produces, kept for fidelity). -/
def stripDotZeros (s : String) : String :=
  let r := s.data.reverse
  let zs := r.takeWhile (· = '0')
  let s1 :=
    if !zs.isEmpty then
      match r.dropWhile (· = '0') with
      | '.' :: rest => String.mk rest.reverse
      | _ => s
    else s
  match s1.data.reverse with
  | '.' :: rest => String.mk rest.reverse
  | _ => s1

/-! ## Element trees (the DOM produced by `DOMParser`) -/

/-- A bounding box as reported by `getBBox`. -/
structure BBoxQ where
  x : ℚ
  y : ℚ
  w : ℚ
  h : ℚ
deriving DecidableEq, Repr

/-- An element of the parsed document: tag name, attributes in document
order, the bounding box `getBBox` would report (`none` models a throwing
call), and child elements. -/
inductive Elem where
  | mk (tag : String) (attrs : List (String × String)) (bbox : Option BBoxQ)
      (children : List Elem)
deriving Repr

/-- Tag name of an element. -/
def Elem.tag : Elem → String
  | .mk t _ _ _ => t

/-- Attribute list of an element. -/
def Elem.attrs : Elem → List (String × String)
  | .mk _ a _ _ => a

/-- Oracle bounding box of an element. -/
def Elem.bbox : Elem → Option BBoxQ
  | .mk _ _ b _ => b

/-- Child elements. -/
def Elem.children : Elem → List Elem
  | .mk _ _ _ cs => cs

/-- DOM `getAttribute` (attribute names are case-sensitive in XML). -/
def Elem.getAttribute (e : Elem) (name : String) : Option String :=
  (e.attrs.find? (fun a => a.1 == name)).map (·.2)

/-- DOM `setAttribute`: overwrite an existing attribute or append. -/
def Elem.setAttribute (e : Elem) (name val : String) : Elem :=
  match e with
  | .mk t a b cs =>
      if a.any (fun p => p.1 == name) then
        .mk t (a.map fun p => if p.1 == name then (name, val) else p) b cs
      else
        .mk t (a ++ [(name, val)]) b cs

/-- DOM `hasAttribute`. -/
def Elem.hasAttribute (e : Elem) (name : String) : Bool :=
  e.attrs.any (fun p => p.1 == name)

/-- Result of `DOMParser.parseFromString`: either a document containing a
`parsererror` element with the given text content, or a well-formed
document with the given root element. -/
inductive DomParse where
  | err (msg : String)
  | ok (root : Elem)

/-! ## part_003 `parseSvgMeta` -/

/-- The falsy-coalescing assignment `if (!v) v = d` on an optional
number. -/
def unfalsyD (d : ℚ) : Option ℚ → ℚ
  | none => d
  | some q => if q = 0 then d else q

/-- Lines 68–79 of part_003 `parseSvgMeta`: resolve width/height from the
`width`/`height` attributes, the `viewBox` attribute, and the hard
defaults 320×180. -/
def resolveSize (wAttr hAttr vbAttr : Option String) : ℚ × ℚ :=
  let w0 := parseLength wAttr
  let h0 := parseLength hAttr
  let vbTruthy : Bool := match vbAttr with | some s => !(s == "") | none => false
  let (w1, h1) :=
    if (!truthyNum w0 || !truthyNum h0) && vbTruthy then
      match vbAttr with
      | some vb =>
          let ps := (splitWs vb).map jsParseFloat
          let vw := (ps.get? 2).getD none
          let vh := (ps.get? 3).getD none
          ((if !truthyNum w0 && vw.isSome then vw else w0),
           (if !truthyNum h0 && vh.isSome then vh else h0))
      | none => (w0, h0)
    else (w0, h0)
  (unfalsyD 320 w1, unfalsyD 180 h1)

/-- All descendant elements of a list of children, in document order
(`querySelectorAll("*")` scoped to an element). -/
def descendantsList : List Elem → List Elem
  | [] => []
  | .mk t a b cs :: rest => .mk t a b cs :: (descendantsList cs ++ descendantsList rest)

/-- Descendants of an element, excluding the element itself. -/
def Elem.descendants (e : Elem) : List Elem :=
  descendantsList e.children

/-- Insertion into the color `Set` (JS sets preserve insertion order). -/
def addColor (acc : List String) (v : String) : List String :=
  if acc.contains v then acc else acc ++ [v]

/-- The fill/stroke attribute filter of part_003 `parseSvgMeta`: a truthy
value other than `"none"` not starting with `"url("` is added trimmed. -/
def collectAttrColor (acc : List String) (v : Option String) : List String :=
  match v with
  | none => acc
  | some val =>
      if val ≠ "" && val ≠ "none" && !strStartsWith val "url(" then addColor acc (strTrim val)
      else acc

/-- The inline-style scan of part_003 `parseSvgMeta`. -/
def collectStyleColors (acc : List String) (style : Option String) : List String :=
  match style with
  | none => acc
  | some s =>
      if s = "" then acc
      else
        (splitOnChar ';' s).foldl
          (fun acc decl =>
            let decl := strTrim decl
            if decl = "" then acc
            else
              let parts := (splitOnChar ':' decl).map strTrim
              match parts.get? 0, parts.get? 1 with
              | some prop, some val =>
                  if prop ≠ "" && val ≠ "" &&
                      (prop == "fill" || prop == "stroke") &&
                      val ≠ "none" && !strStartsWith val "url(" then
                    addColor acc val
                  else acc
              | _, _ => acc)
          acc

/-- The color walk of part_003 `parseSvgMeta` over all descendants. -/
def collectColors (root : Elem) : List String :=
  root.descendants.foldl
    (fun acc el =>
      collectStyleColors
        (collectAttrColor (collectAttrColor acc (el.getAttribute "fill"))
          (el.getAttribute "stroke"))
        (el.getAttribute "style"))
    []

/-- The metadata record returned by part_003 `parseSvgMeta`. -/
structure SvgMeta where
  width : ℚ
  height : ℚ
  viewBox : String
  signature : String
  colors : List String
  error : Option String
deriving Repr

/-- part_003 `parseSvgMeta` over an abstract `DOMParser` result. -/
def parseSvgMeta (p : DomParse) : SvgMeta :=
  match p with
  | .err msg =>
      { width := 320, height := 180, viewBox := "0 0 320 180", signature := ""
        colors := []
        error := some (if msg = "" then "SVG の解析に失敗しました" else msg) }
  | .ok root =>
      if !(strToLower root.tag == "svg") then
        { width := 320, height := 180, viewBox := "0 0 320 180", signature := ""
          colors := [], error := some "SVG ルート要素が見つかりません" }
      else
        let wAttr := root.getAttribute "width"
        let hAttr := root.getAttribute "height"
        let vbAttr := root.getAttribute "viewBox"
        let (w, h) := resolveSize wAttr hAttr vbAttr
        let vbTruthy : Option String :=
          match vbAttr with
          | some s => if s = "" then none else some s
          | none => none
        { width := w, height := h
          viewBox := vbTruthy.getD ("0 0 " ++ qToString w ++ " " ++ qToString h)
          signature := qToString w ++ "|" ++ qToString h ++ "|" ++ vbTruthy.getD "-"
          colors := collectColors root
          error := none }

/-- The preview pane of the part_003 `App` (lines 534–679): an error
alert replaces the whole preview stack; the dimension overlay exists only
inside the stack. -/
inductive PreviewPane where
  | errorAlert (msg : String)
  | stack (overlayShown : Bool)
deriving Repr

/-- Render selection of the part_003 `App`. -/
def appPreviewPane (meta : SvgMeta) (showDimensionLines : Bool) : PreviewPane :=
  match meta.error with
  | some m => .errorAlert m
  | none => .stack showDimensionLines

/-! ## part_004 `parseSvg`: viewBox resolution and root mutation -/

/-- Lines 719–745 of part_004 `parseSvg`: parse the `viewBox` attribute
(four space/comma separated finite numbers, falsy width/height coerced to
1); otherwise derive a viewBox from the `width`/`height` attributes with
the 160×120 defaults and write it back onto the root; ensure a
`preserveAspectRatio` attribute. Returns the (possibly mutated) root and
the resolved viewBox. -/
def parseSvgViewBox (svg : Elem) : Elem × BBoxQ :=
  let vbAttr := svg.getAttribute "viewBox"
  let parsed : Option BBoxQ :=
    match vbAttr with
    | some s =>
        if s = "" then none
        else
          match (splitSpaceComma s).map jsParseFloat with
          | [some a, some b, some c, some d] =>
              some ⟨a, b, if c = 0 then 1 else c, if d = 0 then 1 else d⟩
          | _ => none
    | none => none
  let (svg, vb) :=
    match parsed with
    | some vb => (svg, vb)
    | none =>
        let wA := parseLength4 (svg.getAttribute "width") 160
        let hA := parseLength4 (svg.getAttribute "height") 120
        let vb : BBoxQ := ⟨0, 0, if wA = 0 then 160 else wA, if hA = 0 then 120 else hA⟩
        (svg.setAttribute "viewBox"
          (qToString vb.x ++ " " ++ qToString vb.y ++ " " ++
            qToString vb.w ++ " " ++ qToString vb.h), vb)
  let svg :=
    match svg.getAttribute "preserveAspectRatio" with
    | some s => if s = "" then svg.setAttribute "preserveAspectRatio" "xMidYMid meet" else svg
    | none => svg.setAttribute "preserveAspectRatio" "xMidYMid meet"
  (svg, vb)

/-! ## part_003 `sanitizeSvg` (string-level script removal) -/

/-- Case-insensitive prefix test on character lists. -/
def isCiAt : List Char → List Char → Bool
  | [], _ => true
  | _ :: _, [] => false
  | p :: ps, c :: cs => (p.toLower == c.toLower) && isCiAt ps cs

/-- Suffix strictly after the first occurrence of a character. -/
def afterChar (t : Char) : List Char → Option (List Char)
  | [] => none
  | c :: rest => if c = t then some rest else afterChar t rest

/-- Suffix after the first case-insensitive occurrence of a pattern. -/
def afterCi (pat : List Char) : List Char → Option (List Char)
  | [] => if pat.isEmpty then some [] else none
  | c :: rest =>
      if isCiAt pat (c :: rest) then some ((c :: rest).drop pat.length)
      else afterCi pat rest

theorem afterChar_length {t : Char} : ∀ {cs r : List Char}, afterChar t cs = some r → r.length < cs.length := by
  intro cs
  induction cs with
  | nil => intro r h; simp [afterChar] at h
  | cons c rest ih =>
      intro r h
      simp only [afterChar] at h
      split at h
      · cases h; simp
      · exact Nat.lt_succ_of_lt (ih h)

theorem afterCi_length {pat : List Char} : ∀ {cs r : List Char}, afterCi pat cs = some r → r.length ≤ cs.length := by
  intro cs
  induction cs with
  | nil => intro r h; simp only [afterCi] at h; split at h <;> simp_all
  | cons c rest ih =>
      intro r h
      simp only [afterCi] at h
      split at h
      · cases h
        simp
      · exact Nat.le_succ_of_le (ih h)

/-- Complete a match of `<script[\s\S]*?>[\s\S]*?<\/script>` whose start
has already been located: skip `<script`, find the next `>`, then the
next case-insensitive `</script>`; return the suffix after the match. -/
def completeScript (cs : List Char) : Option (List Char) :=
  (afterChar '>' (cs.drop 7)).bind (afterCi "</script>".data)

theorem completeScript_length {cs r : List Char} (h : completeScript cs = some r) :
    r.length < cs.length := by
  simp only [completeScript, Option.bind_eq_some] at h
  obtain ⟨a, ha, hr⟩ := h
  calc r.length ≤ a.length := afterCi_length hr
    _ < (cs.drop 7).length := afterChar_length ha
    _ ≤ cs.length := by simp

/-- Global replacement of `/<script[\s\S]*?>[\s\S]*?<\/script>/gi` by the
empty string: scan left to right; at the first `<script` occurrence try
to complete the non-greedy match (if completion fails there, no later
start can complete either, so the rest is kept verbatim).  The fuel is a
structural-recursion bound only: by `completeScript_length` every
recursive call is on a strictly shorter list, so fuel = length never runs
out. -/
def stripScriptsGo (fuel : ℕ) (cs : List Char) : List Char :=
  match fuel, cs with
  | 0, cs => cs
  | _ + 1, [] => []
  | fuel + 1, c :: rest =>
      if isCiAt "<script".data (c :: rest) then
        match completeScript (c :: rest) with
        | some after => stripScriptsGo fuel after
        | none => c :: rest
      else c :: stripScriptsGo fuel rest

/-- The full scan, with enough fuel for its input. -/
def stripScripts (cs : List Char) : List Char :=
  stripScriptsGo cs.length cs

/-- part_003 `sanitizeSvg`. -/
def sanitizeSvg (svgText : String) : String :=
  if svgText = "" then "" else String.mk (stripScripts svgText.data)

/-! ## part_004 `sanitizeSvgMarkup` (tree-level sanitizer) -/

mutual

/-- `doc.querySelector("svg")`: first element with tag `svg` in document
order, the root included. -/
def findSvgElem : Elem → Option Elem
  | .mk t a b cs => if t == "svg" then some (.mk t a b cs) else findSvgList cs

/-- `querySelector("svg")` over a child list. -/
def findSvgList : List Elem → Option Elem
  | [] => none
  | c :: rest =>
      match findSvgElem c with
      | some e => some e
      | none => findSvgList rest

end

mutual

/-- `svg.querySelectorAll("script").forEach(node => node.remove())`:
drop every descendant element tagged `script` (with its subtree). -/
def removeScriptsElem : Elem → Elem
  | .mk t a b cs => .mk t a b (removeScriptsList cs)

/-- Script removal over a child list. -/
def removeScriptsList : List Elem → List Elem
  | [] => []
  | c :: rest =>
      if c.tag == "script" then removeScriptsList rest
      else removeScriptsElem c :: removeScriptsList rest

end

/-- Drop the attributes whose lowercased name starts with `on`. -/
def stripOnAttrs (attrs : List (String × String)) : List (String × String) :=
  attrs.filter fun a => !(strStartsWith (strToLower a.1) "on")

mutual

/-- Strip `on*` attributes from an element and all its descendants. -/
def stripOnElem : Elem → Elem
  | .mk t a b cs => .mk t (stripOnAttrs a) b (stripOnList cs)

/-- `on*`-attribute stripping over a child list. -/
def stripOnList : List Elem → List Elem
  | [] => []
  | c :: rest => stripOnElem c :: stripOnList rest

end

/-- The `TreeWalker` pass of `sanitizeSvgMarkup`: `walker.nextNode()`
starts below the root, so only elements strictly below the root are
cleaned — the root's own attributes are untouched. -/
def stripOnBelowRoot (e : Elem) : Elem :=
  match e with
  | .mk t a b cs => .mk t a b (stripOnList cs)

/-- part_004 `sanitizeSvgMarkup` over an abstract parse result: on parse
failure or a missing `svg` element the function returns `""` (modelled
`none`); otherwise scripts are removed, `on*` attributes are stripped via
the tree walker, and sizing attributes are written onto the root. `width`
and `height` model the possibly-`NaN` numbers supplied by the caller. -/
def sanitizeSvgMarkup (p : DomParse) (width height : Option ℚ) (unitStr : String) :
    Option Elem :=
  match p with
  | .err _ => none
  | .ok root =>
      match findSvgElem root with
      | none => none
      | some svg =>
          let svg := removeScriptsElem svg
          let svg := stripOnBelowRoot svg
          let widthValue : ℚ := match width with | some w => if 0 < w then w else 200 | none => 200
          let heightValue : ℚ := match height with | some h => if 0 < h then h else 120 | none => 120
          let svg := svg.setAttribute "width" (qToString widthValue ++ unitStr)
          let svg := svg.setAttribute "height" (qToString heightValue ++ unitStr)
          let svg :=
            if svg.hasAttribute "viewBox" then svg
            else svg.setAttribute "viewBox"
              ("0 0 " ++ qToString widthValue ++ " " ++ qToString heightValue)
          let svg := svg.setAttribute "preserveAspectRatio" "xMidYMid meet"
          some svg

mutual

/-- No element in this tree is tagged `script`. -/
def noScriptB : Elem → Bool
  | .mk t _ _ cs => !(t == "script") && noScriptListB cs

/-- `noScriptB` over a child list. -/
def noScriptListB : List Elem → Bool
  | [] => true
  | c :: rest => noScriptB c && noScriptListB rest

end

/-- This element carries no attribute whose lowercased name starts with
`on`. -/
def noOnAttrsB (e : Elem) : Bool :=
  e.attrs.all fun a => !(strStartsWith (strToLower a.1) "on")

mutual

/-- No element in this tree carries an `on*` attribute. -/
def allNoOnB : Elem → Bool
  | .mk t a b cs => noOnAttrsB (.mk t a b cs) && allNoOnListB cs

/-- `allNoOnB` over a child list. -/
def allNoOnListB : List Elem → Bool
  | [] => true
  | c :: rest => allNoOnB c && allNoOnListB rest

end

/-- Every element strictly below the root is free of `on*` attributes. -/
def belowRootNoOnB (e : Elem) : Bool :=
  allNoOnListB e.children

/-! ## SvgTools: background shape pruner -/

/-- SvgTools `approxEqual`. -/
def approxEqual (a b tol : ℚ) : Bool :=
  |a - b| ≤ tol

/-- SvgTools `matchesDimension`: percentage-suffixed values match only
near 100%, other values are parsed numerically. (`expected` is always a
finite number here, so the leading `Number.isFinite` guard is vacuous.) -/
def matchesDimension (attr : Option String) (expected tol : ℚ) : Bool :=
  match attr with
  | none => false
  | some raw =>
      if raw = "" then false
      else
        let value := strTrim raw
        if value = "" then false
        else if strEndsWith value "%" then
          match jsParseFloat value with
          | some pct => |pct - 100| < 1 / 100
          | none => false
        else
          match parseNumericTools (some value) with
          | some numeric => approxEqual numeric expected tol
          | none => false

/-- SvgTools `matchesPosition`: a missing/empty attribute stands for 0;
percentage values match only near 0%. -/
def matchesPosition (attr : Option String) (expected tol : ℚ) : Bool :=
  match attr with
  | none => approxEqual 0 expected tol
  | some raw =>
      if raw = "" then approxEqual 0 expected tol
      else
        let value := strTrim raw
        if value = "" then approxEqual 0 expected tol
        else if strEndsWith value "%" then
          match jsParseFloat value with
          | some pct => |pct| < 1 / 100
          | none => false
        else
          match parseNumericTools (some value) with
          | some numeric => approxEqual numeric expected tol
          | none => false

/-- The candidate selector
`"rect, path, polygon, polyline, circle, ellipse, g, use"` (tag matching
is case-sensitive in the XML document). -/
def isPruneCandidate (tag : String) : Bool :=
  tag == "rect" || tag == "path" || tag == "polygon" || tag == "polyline" ||
    tag == "circle" || tag == "ellipse" || tag == "g" || tag == "use"

/-- The canvas metrics as produced by SvgTools `getSvgMetrics`: width and
height may be `NaN` (`none`). -/
structure CanvasMetricsQ where
  width : Option ℚ
  height : Option ℚ
  minX : ℚ
  minY : ℚ

/-- Whether `removeCanvasSizedShapes` removes this node: a `rect` whose
size/position attributes match the canvas within the tolerance, or any
candidate whose `getBBox` box matches (a throwing `getBBox` is ignored). -/
def matchesCanvas (w h minX minY tol : ℚ) (e : Elem) : Bool :=
  (strToLower e.tag == "rect" &&
    matchesDimension (e.getAttribute "width") w tol &&
    matchesDimension (e.getAttribute "height") h tol &&
    matchesPosition (e.getAttribute "x") minX tol &&
    matchesPosition (e.getAttribute "y") minY tol) ||
  (match e.bbox with
    | some box =>
        approxEqual box.w w tol && approxEqual box.h h tol &&
          approxEqual box.x minX tol && approxEqual box.y minY tol
    | none => false)

mutual

/-- Pruning pass below one element: `inDefs` records whether an ancestor
is a `defs` container (`node.closest("defs")`). -/
def pruneElem (w h minX minY tol : ℚ) (inDefs : Bool) : Elem → Elem
  | .mk t a b cs => .mk t a b (pruneList w h minX minY tol (inDefs || t == "defs") cs)

/-- Pruning pass over a child list: a candidate outside `defs` whose
geometry matches the canvas is removed together with its subtree, others
are kept and recursed into. -/
def pruneList (w h minX minY tol : ℚ) (inDefs : Bool) : List Elem → List Elem
  | [] => []
  | c :: rest =>
      if isPruneCandidate c.tag && !inDefs && matchesCanvas w h minX minY tol c then
        pruneList w h minX minY tol inDefs rest
      else
        pruneElem w h minX minY tol inDefs c :: pruneList w h minX minY tol inDefs rest

end

/-- SvgTools `removeCanvasSizedShapes`: a no-op when the resolved canvas
width or height is `NaN`; otherwise candidates matching the canvas
footprint within `max(width,height)*0.005 + 0.5` are removed. The root
itself is never a candidate (`querySelectorAll` is scoped below it). -/
def removeCanvasSizedShapes (m : CanvasMetricsQ) (svgEl : Elem) : Elem :=
  match m.width, m.height with
  | some w, some h =>
      let tol := max w h * (5 / 1000) + 1 / 2
      pruneElem w h m.minX m.minY tol false svgEl
  | _, _ => svgEl

/-! ## Aspect-ratio-locked dimension handlers -/

/-- part_003 `handleWidthChange` (lines 372–396): the new value of the
*height* input after the width input is edited to `value`. The stored
ratio is always a finite number in this app, so the `Number.isFinite`
guard on it is modelled as always passing; `aspect = 0` models the
`ratio === 0` guard. -/
def handleWidthChange3 (value : String) (maintainAspect : Bool) (aspect : ℚ)
    (h0 : String) : String :=
  if !maintainAspect then h0
  else
    match jsParseFloat value with
    | none => h0
    | some numeric =>
        if aspect = 0 then h0
        else
          let nextHeight := numeric / aspect
          if 0 < nextHeight then formatNumberForInput nextHeight else h0

/-- part_004 `handleWidthChange` (lines 281–303): the new value of the
*height* input after the width input is edited to `next`; the stored
ratio falls back to 1 when falsy, and the derived value is written back
whenever it is finite — with no positivity check. -/
def handleWidthChange4 (next : String) (lockAspect : Bool) (aspect : ℚ)
    (h0 : String) : String :=
  if !lockAspect then h0
  else
    match parseNumeric4 next with
    | none => h0
    | some numeric =>
        let r := if aspect = 0 then 1 else aspect
        let linked := numeric / r
        stripDotZeros (toFixedStr 3 linked)

/-! ## Color model -/

/-- An RGB triple (channels are numbers in JS; they stay exact here). -/
structure Rgb where
  r : ℚ
  g : ℚ
  b : ℚ
deriving DecidableEq, Repr

/-- Value of a hexadecimal digit character. -/
def hexDigitVal (c : Char) : Option ℕ :=
  if c.isDigit then some (c.toNat - 48)
  else if 'a' ≤ c ∧ c ≤ 'f' then some (c.toNat - 87)
  else if 'A' ≤ c ∧ c ≤ 'F' then some (c.toNat - 55)
  else none

/-- JS `Number.parseInt(s, 16)` on the slices used here: the value of the
leading run of hexadecimal digits, `NaN` when there is none. -/
def parseIntHex (cs : List Char) : Option ℕ :=
  let ds := cs.takeWhile fun c => (hexDigitVal c).isSome
  if ds.isEmpty then none
  else some (ds.foldl (fun n c => n * 16 + (hexDigitVal c).getD 0) 0)

/-- Duplicate every character (`"abc"` → `"aabbcc"`), as the 3-digit hex
expansion does. -/
def doubleChars (s : String) : String :=
  String.mk (s.data.foldr (fun c acc => c :: c :: acc) [])

/-- part_004 (second app) `hexToRgb`: trim, drop a leading `#`, expand
3-digit form, require 6 digits. -/
def hexToRgb2 (hex : String) : Option Rgb :=
  let normalized := strTrim hex
  let normalized := if strStartsWith normalized "#" then strDrop normalized 1 else normalized
  let normalized := if normalized.length = 3 then doubleChars normalized else normalized
  if normalized.length ≠ 6 then none
  else
    match parseIntHex (normalized.data.take 2),
        parseIntHex ((normalized.data.drop 2).take 2),
        parseIntHex (normalized.data.drop 4) with
    | some r, some g, some b => some ⟨r, g, b⟩
    | _, _, _ => none

/-- part_004 (first app) `normalizeHex`: strip non-hex characters, then
accept 3-, 6- or 8-digit forms. -/
def normalizeHex (hex : String) : Option String :=
  if hex = "" then none
  else
    let cleaned := String.mk (hex.data.filter fun c => (hexDigitVal c).isSome)
    if cleaned.length = 3 then some (doubleChars cleaned)
    else if cleaned.length = 6 then some cleaned
    else if cleaned.length = 8 then some (String.mk (cleaned.data.take 6))
    else none

/-- part_004 (first app) `hexToRgb` built on `normalizeHex`. -/
def hexToRgb1 (hex : String) : Option Rgb :=
  match normalizeHex hex with
  | none => none
  | some normalized =>
      match parseIntHex (normalized.data.take 2),
          parseIntHex ((normalized.data.drop 2).take 2),
          parseIntHex (normalized.data.drop 4) with
      | some r, some g, some b => some ⟨r, g, b⟩
      | _, _, _ => none

/-- The fixed candidate ramp of the first part_004 app. -/
def NEUTRAL_PALETTE1 : List String :=
  ["#f5f5f5", "#e7e5e4", "#d4d4d8", "#a8a29e", "#1f2937"]

/-- The fixed candidate ramp of the second part_004 app. -/
def NEUTRAL_PALETTE2 : List String :=
  ["#f8fafc", "#f3f4f6", "#e5e7eb", "#d1d5db", "#cbd5f5", "#94a3b8"]

/-- `colorDistance` (both part_004 apps): Euclidean distance in RGB
space. -/
noncomputable def colorDistance (a b : Rgb) : ℝ :=
  Real.sqrt (((a.r - b.r) ^ 2 + (a.g - b.g) ^ 2 + (a.b - b.b) ^ 2 : ℚ) : ℝ)

/-- The channel linearization inside part_004 `getLuminance`. -/
noncomputable def toLinear (channel : ℚ) : ℝ :=
  let c : ℚ := channel / 255
  if c ≤ 3928 / 100000 then ((c : ℝ) / 12.92)
  else (((c + 55 / 1000) / (1055 / 1000) : ℚ) : ℝ) ^ (2.4 : ℝ)

/-- part_004 `getLuminance`: standard relative luminance. -/
noncomputable def getLuminance (c : Rgb) : ℝ :=
  0.2126 * toLinear c.r + 0.7152 * toLinear c.g + 0.0722 * toLinear c.b

/-- The inner `colors.reduce((min, color) => Math.min(min, distance), Infinity)`
of both selectors.  JS folds from `Infinity`; on the non-empty palettes
reachable here (the empty palette returns earlier) this equals folding
from the first distance. -/
noncomputable def minDistance (cand : Rgb) : List Rgb → ℝ
  | [] => 0
  | c :: rest => (rest.map (colorDistance cand)).foldl min (colorDistance cand c)

/-- `avgLuminance` of part_004 `chooseNeutralColor`. -/
noncomputable def avgLuminance (colors : List Rgb) : ℝ :=
  (colors.map getLuminance).sum / colors.length

/-- The score of one candidate in part_004 `chooseNeutralColor`. -/
noncomputable def scoreCandidate (colors : List Rgb) (cand : Rgb) : ℝ :=
  minDistance cand colors * 0.8 + |getLuminance cand - avgLuminance colors| * 260

/-- The selection loop shared by both selectors:
`best = palette[0]; bestScore = -Infinity;` then a strict-improvement
scan in declaration order. -/
noncomputable def pickBest {α : Type} (score : α → ℝ) (cands : List α) : Option α :=
  (cands.foldl
    (fun st cand =>
      if ((score cand : ℝ) : EReal) > st.2 then (some cand, ((score cand : ℝ) : EReal))
      else st)
    (cands.head?, (⊥ : EReal))).1

/-- The candidate list of part_004 `chooseNeutralColor`
(`NEUTRAL_PALETTE.map(...).filter((entry) => entry.rgb)`). -/
def neutralCandidates2 : List (String × Rgb) :=
  NEUTRAL_PALETTE2.filterMap fun hx => (hexToRgb2 hx).map fun rgb => (hx, rgb)

/-- part_004 (second app) `chooseNeutralColor`. -/
noncomputable def chooseNeutralColor (colors : List Rgb) : String :=
  match colors with
  | [] => ((neutralCandidates2.get? 1).map Prod.fst).getD "#f3f4f6"
  | _ :: _ =>
      ((pickBest (fun cand => scoreCandidate colors cand.2) neutralCandidates2).map
        Prod.fst).getD "#f3f4f6"

/-- The candidate list of part_004 `chooseNeutralBackground` (mapped
without a filter, so a candidate's rgb is optional). -/
def neutralPalette1 : List (String × Option Rgb) :=
  NEUTRAL_PALETTE1.map fun hx => (hx, hexToRgb1 hx)

/-- The per-candidate score of `chooseNeutralBackground` (minimum palette
distance only).  A `none` rgb would make the JS throw; it is unreachable
because every `NEUTRAL_PALETTE` entry parses. -/
noncomputable def scoreBackground (colors : List Rgb) (cand : String × Option Rgb) : ℝ :=
  minDistance (cand.2.getD ⟨0, 0, 0⟩) colors

/-- part_004 (first app) `chooseNeutralBackground`. -/
noncomputable def chooseNeutralBackground (colors : List Rgb) : String :=
  match colors with
  | [] => (neutralPalette1.head?.map Prod.fst).getD ""
  | _ :: _ =>
      ((pickBest (scoreBackground colors) neutralPalette1).map Prod.fst).getD ""

/-! ## part_003 `computeNeutralBackground` (HSL-based) -/

/-- Truncation toward zero, as JS integer conversion in `%`. -/
def ratTrunc (q : ℚ) : ℤ :=
  if 0 ≤ q then ⌊q⌋ else ⌈q⌉

/-- The JS remainder operator `%` (sign of the dividend). -/
def jsRem (a b : ℚ) : ℚ :=
  a - b * ratTrunc (a / b)

/-- JS `Math.round`: half-way cases toward positive infinity. -/
def jsRound (q : ℚ) : ℤ :=
  ⌊q + 1 / 2⌋

/-- part_003 `rgbToHsl`, returning `(h, s, l)`. -/
def rgbToHsl (r g b : ℚ) : ℚ × ℚ × ℚ :=
  let rn := r / 255
  let gn := g / 255
  let bn := b / 255
  let mx := max rn (max gn bn)
  let mn := min rn (min gn bn)
  let delta := mx - mn
  let l := (mx + mn) / 2
  if delta = 0 then (0, 0, l)
  else
    let s := delta / (1 - |2 * l - 1|)
    let h0 :=
      if mx = rn then jsRem ((gn - bn) / delta) 6
      else if mx = gn then (bn - rn) / delta + 2
      else (rn - gn) / delta + 4
    let h1 := h0 * 60
    (if h1 < 0 then h1 + 360 else h1, s, l)

/-- `value.toString(16).padStart(2, "0")` for the rounded channel. -/
def toHexByte (v : ℤ) : String :=
  let body := (Nat.toDigits 16 v.natAbs).asString
  let s := if v < 0 then "-" ++ body else body
  if s.length < 2 then String.mk (List.replicate (2 - s.length) '0') ++ s else s

/-- part_003 `hslToHex`. -/
def hslToHex (h s l : ℚ) : String :=
  let c := (1 - |2 * l - 1|) * s
  let x := c * (1 - |jsRem (h / 60) 2 - 1|)
  let m := l - c / 2
  let (rp, gp, bp) : ℚ × ℚ × ℚ :=
    if 0 ≤ h && h < 60 then (c, x, 0)
    else if 60 ≤ h && h < 120 then (x, c, 0)
    else if 120 ≤ h && h < 180 then (0, c, x)
    else if 180 ≤ h && h < 240 then (0, x, c)
    else if 240 ≤ h && h < 300 then (x, 0, c)
    else (c, 0, x)
  "#" ++ toHexByte (jsRound ((rp + m) * 255)) ++ toHexByte (jsRound ((gp + m) * 255)) ++
    toHexByte (jsRound ((bp + m) * 255))

/-- part_003 `computeNeutralBackground`.  The canvas-based color
resolution `parseColorToRgb` is a browser primitive, passed in as
`resolver`.  Returns `(color, lightness)`. -/
def computeNeutralBackground (resolver : String → Option Rgb)
    (colors : List String) : String × ℚ :=
  let fallback : String × ℚ := ("#f5f5f5", 94 / 100)
  match colors with
  | [] => fallback
  | _ :: _ =>
      let rgbs := colors.filterMap resolver
      match rgbs with
      | [] => fallback
      | r0 :: rs =>
          let rgbs := r0 :: rs
          let sum := rgbs.foldl
            (fun acc rgb => (acc.1 + rgb.r, acc.2.1 + rgb.g, acc.2.2 + rgb.b))
            ((0 : ℚ), (0 : ℚ), (0 : ℚ))
          let n : ℚ := rgbs.length
          let (hh, _, l) := rgbToHsl (sum.1 / n) (sum.2.1 / n) (sum.2.2 / n)
          let lightness : ℚ :=
            if l > 7 / 10 then 1 / 4 else if l < 3 / 10 then 9 / 10 else 86 / 100
          (hslToHex hh 0 lightness, lightness)

/-! ## Reported background strings -/

/-- part_003 line 338: the background string handed to the stage and the
summary (`backgroundTransparent ? "transparent" : neutralBackground.color`). -/
def backgroundColor3 (resolver : String → Option Rgb)
    (backgroundTransparent : Bool) (colors : List String) : String :=
  if backgroundTransparent then "transparent"
  else (computeNeutralBackground resolver colors).1

/-- part_004 (second app) line 1105:
`previewBackground = transparentBg ? "transparent" : autoBackground`. -/
noncomputable def previewBackground4 (transparentBg : Bool) (colors : List Rgb) : String :=
  if transparentBg then "transparent" else chooseNeutralColor colors

/-- part_004 (second app) line 1111:
`backgroundLabel = transparentBg ? "transparent" : previewBackground`. -/
noncomputable def backgroundLabel4 (transparentBg : Bool) (colors : List Rgb) : String :=
  if transparentBg then "transparent" else previewBackground4 transparentBg colors

/-! ## Claim C8: transparent background bypasses the selector -/

/-- C8: with `transparentBackground = true`, the reported background
string is the `"transparent"` sentinel in both apps, and it does not
depend on the extracted palette (runs differing only in the palette
report the same background). -/
theorem transparent_background_bypasses_selector :
    ∀ (resolver : String → Option Rgb) (colors colors' : List String)
      (rgbs rgbs' : List Rgb),
      backgroundColor3 resolver true colors = "transparent" ∧
      backgroundLabel4 true rgbs = "transparent" ∧
      previewBackground4 true rgbs = "transparent" ∧
      backgroundColor3 resolver true colors = backgroundColor3 resolver true colors' ∧
      backgroundLabel4 true rgbs = backgroundLabel4 true rgbs' := by
  intro _ _ _ _ _
  exact ⟨rfl, rfl, rfl, rfl, rfl⟩

/-! ## Claim C3: malformed or rootless markup -/

/-- Inputs the ingestion rejects: a `DOMParser` failure, or a document
whose root is not an `svg` element. -/
def ingestionRejected (p : DomParse) : Bool :=
  match p with
  | .err _ => true
  | .ok root => !(strToLower root.tag == "svg")

/-- C3: on unparseable or rootless input, `parseSvgMeta` reports a
non-empty displayable error, and the app renders the error alert instead
of the preview stack — so no overlay and no processed output are produced
for that pass, whatever the overlay toggle is. -/
theorem malformed_markup_error_no_overlay :
    ∀ (p : DomParse) (showLines : Bool), ingestionRejected p = true →
      ∃ msg, (parseSvgMeta p).error = some msg ∧ msg ≠ "" ∧
        appPreviewPane (parseSvgMeta p) showLines = .errorAlert msg := by
  intro p showLines h
  cases p with
  | err msg =>
      refine ⟨if msg = "" then "SVG の解析に失敗しました" else msg, rfl, ?_, rfl⟩
      split
      · decide
      · assumption
  | ok root =>
      simp only [ingestionRejected, Bool.not_eq_true'] at h
      refine ⟨"SVG ルート要素が見つかりません", ?_, by decide, ?_⟩
      · simp only [parseSvgMeta, h]
        rfl
      · simp only [parseSvgMeta, appPreviewPane, h]
        rfl

/-- Witness for C3 at a concrete unparseable input. -/
theorem malformed_markup_error_no_overlay_witness :
    ingestionRejected (.err "error on line 1 at column 12: unterminated tag") = true ∧
    ∃ msg,
      (parseSvgMeta (.err "error on line 1 at column 12: unterminated tag")).error = some msg ∧
      msg ≠ "" ∧
      appPreviewPane (parseSvgMeta (.err "error on line 1 at column 12: unterminated tag")) true =
        .errorAlert msg :=
  ⟨by decide,
   malformed_markup_error_no_overlay (.err "error on line 1 at column 12: unterminated tag")
     true (by decide)⟩

/-! ## Claim C1: positivity of resolved canvas metrics -/

/-- The viewBox coordinate the width/height fallback of `parseSvgMeta`
reads: entry `i` of the whitespace-split, `parseFloat`-mapped `viewBox`
attribute (`none` when the attribute is falsy or the entry is missing or
`NaN`). -/
def vbPart (vbAttr : Option String) (i : ℕ) : Option ℚ :=
  match vbAttr with
  | none => none
  | some s => if s = "" then none else (((splitWs s).map jsParseFloat).get? i).getD none

/-- C1 counterexample: a document with `width="-5"` `height="-7"` resolves
to width −5 and height −7 — the invariant `width > 0 ∧ height > 0` fails,
because present numeric attribute values pass through unvalidated. -/
theorem resolved_metrics_negative_counterexample :
    (parseSvgMeta (.ok (.mk "svg" [("width", "-5"), ("height", "-7")] none []))).width = -5 ∧
    (parseSvgMeta (.ok (.mk "svg" [("width", "-5"), ("height", "-7")] none []))).height = -7 ∧
    ¬(0 < (parseSvgMeta (.ok (.mk "svg" [("width", "-5"), ("height", "-7")] none []))).width ∧
      0 < (parseSvgMeta (.ok (.mk "svg" [("width", "-5"), ("height", "-7")] none []))).height) := by
  have hw : (parseSvgMeta (.ok (.mk "svg" [("width", "-5"), ("height", "-7")] none []))).width = -5 := by
    simp [parseSvgMeta, Elem.tag, Elem.getAttribute, Elem.attrs, resolveSize, parseLength,
      matchNumFrom, tryAt, numAt, mantissaVal, digitsVal, truthyNum, unfalsyD, List.find?,
      strToLower]
  have hh : (parseSvgMeta (.ok (.mk "svg" [("width", "-5"), ("height", "-7")] none []))).height = -7 := by
    simp [parseSvgMeta, Elem.tag, Elem.getAttribute, Elem.attrs, resolveSize, parseLength,
      matchNumFrom, tryAt, numAt, mantissaVal, digitsVal, truthyNum, unfalsyD, List.find?,
      strToLower]
  refine ⟨hw, hh, ?_⟩
  rw [hw, hh]
  norm_num

/-- A falsy optional number is replaced by the default. -/
theorem unfalsyD_of_falsy (d : ℚ) (o : Option ℚ) (h : truthyNum o = false) :
    unfalsyD d o = d := by
  cases o with
  | none => rfl
  | some q =>
      simp only [truthyNum, Bool.not_eq_false', beq_iff_eq] at h
      simp [unfalsyD, h]

/-- C1 amended: the 320×180 defaults guarantee `width > 0 ∧ height > 0`
whenever the attributes and the viewBox entries are missing or
non-numeric (falsy), but a present non-zero numeric width attribute is
returned as-is — so a negative attribute defeats the invariant. -/
theorem resolveSize_defaults_amended :
    ∀ wAttr hAttr vbAttr : Option String,
      (truthyNum (parseLength wAttr) = false → truthyNum (parseLength hAttr) = false →
        truthyNum (vbPart vbAttr 2) = false → truthyNum (vbPart vbAttr 3) = false →
        resolveSize wAttr hAttr vbAttr = (320, 180) ∧
          0 < (resolveSize wAttr hAttr vbAttr).1 ∧ 0 < (resolveSize wAttr hAttr vbAttr).2) ∧
      (∀ q : ℚ, parseLength wAttr = some q → q ≠ 0 →
        (resolveSize wAttr hAttr vbAttr).1 = q) := by
  intro wAttr hAttr vbAttr
  constructor
  · intro hw hh hvw hvh
    have key : resolveSize wAttr hAttr vbAttr = (320, 180) := by
      unfold resolveSize
      cases vbAttr with
      | none =>
          simp only [Bool.and_false]
          simp [unfalsyD_of_falsy _ _ hw, unfalsyD_of_falsy _ _ hh]
      | some s =>
          by_cases hs : s = ""
          · subst hs
            simp [unfalsyD_of_falsy _ _ hw, unfalsyD_of_falsy _ _ hh]
          · simp only [vbPart, if_neg hs] at hvw hvh
            have hsb : (s == "") = false := beq_eq_false_iff_ne.mpr hs
            simp only [hsb, Bool.not_false, Bool.and_true, hw, hh, Bool.not_false,
              Bool.true_or, if_pos]
            cases hvwS : (((splitWs s).map jsParseFloat).get? 2).getD none with
            | none =>
                cases hvhS : (((splitWs s).map jsParseFloat).get? 3).getD none with
                | none =>
                    simp [hvwS, hvhS, unfalsyD_of_falsy _ _ hw, unfalsyD_of_falsy _ _ hh]
                | some qv =>
                    rw [hvhS] at hvh
                    simp [hvwS, hvhS, unfalsyD_of_falsy _ _ hw, unfalsyD_of_falsy _ _ hh,
                      unfalsyD_of_falsy _ _ hvh]
            | some qv =>
                rw [hvwS] at hvw
                cases hvhS : (((splitWs s).map jsParseFloat).get? 3).getD none with
                | none =>
                    simp [hvwS, hvhS, unfalsyD_of_falsy _ _ hvw, unfalsyD_of_falsy _ _ hh]
                | some qh =>
                    rw [hvhS] at hvh
                    simp [hvwS, hvhS, unfalsyD_of_falsy _ _ hvw, unfalsyD_of_falsy _ _ hvh]
    exact ⟨key, by rw [key]; norm_num, by rw [key]; norm_num⟩
  · intro q hq hq0
    have htr : truthyNum (parseLength wAttr) = true := by
      rw [hq]; simp [truthyNum, hq0]
    unfold resolveSize
    rw [hq]
    have hunf : unfalsyD 320 (some q) = q := by simp [unfalsyD, hq0]
    cases vbAttr with
    | none => simpa using hunf
    | some s =>
        by_cases hs : s = ""
        · subst hs; simpa using hunf
        · have hsb : (s == "") = false := beq_eq_false_iff_ne.mpr hs
          rw [hq] at htr
          simp only [hsb, htr, Bool.not_true, Bool.false_or, Bool.false_and, Bool.and_true]
          split
          · simpa using hunf
          · simpa using hunf

/-- Witness for C1 amended at concrete inputs: all sources missing gives
the positive defaults; a present `-5` width passes through. -/
theorem resolveSize_defaults_amended_witness :
    resolveSize none none none = (320, 180) ∧
    (resolveSize (some "-5") none none).1 = -5 :=
  ⟨((resolveSize_defaults_amended none none none).1 rfl rfl rfl rfl).1,
   (resolveSize_defaults_amended (some "-5") none none).2 (-5)
     (by simp [parseLength, matchNumFrom, tryAt, numAt, mantissaVal, digitsVal])
     (by norm_num)⟩

/-! ## Claim C4: defaults and viewBox write-back -/

/-- C4 counterexample: for a document lacking both viewBox and
width/height, the part_004 `parseSvg` resolver returns the 160×120
default, not the claimed 320×180. -/
theorem parseSvg_default_not_320x180_counterexample :
    (parseSvgViewBox (.mk "svg" [] none [])).2 = ⟨0, 0, 160, 120⟩ ∧
    ¬((parseSvgViewBox (.mk "svg" [] none [])).2.w = 320 ∧
      (parseSvgViewBox (.mk "svg" [] none [])).2.h = 180) := by
  have h : (parseSvgViewBox (.mk "svg" [] none [])).2 = ⟨0, 0, 160, 120⟩ := by
    simp [parseSvgViewBox, Elem.getAttribute, Elem.attrs, parseLength4]
  refine ⟨h, ?_⟩
  rw [h]
  norm_num

/-- C4 amended: `parseSvgMeta` (part_003) resolves the 320×180 default
and only the *returned metadata* carries the synthesized viewBox string —
the tree is not touched; `parseSvg` (part_004) does mutate the root with
a synthesized explicit viewBox (plus `preserveAspectRatio`), but its
defaults are 160×120. -/
theorem metrics_default_amended :
    resolveSize none none none = (320, 180) ∧
    (parseSvgMeta (.ok (.mk "svg" [] none []))).viewBox = "0 0 320 180" ∧
    (parseSvgMeta (.ok (.mk "svg" [] none []))).width = 320 ∧
    (parseSvgMeta (.ok (.mk "svg" [] none []))).height = 180 ∧
    (parseSvgViewBox (.mk "svg" [] none [])).1.getAttribute "viewBox" = some "0 0 160 120" ∧
    (parseSvgViewBox (.mk "svg" [] none [])).1.getAttribute "preserveAspectRatio" =
      some "xMidYMid meet" ∧
    (parseSvgViewBox (.mk "svg" [] none [])).2 = ⟨0, 0, 160, 120⟩ := by
  have h320 : resolveSize none none none = (320, 180) := rfl
  have hq160 : qToString 160 = "160" := by decide
  have hq120 : qToString 120 = "120" := by decide
  have hq0 : qToString 0 = "0" := by decide
  have hq320 : qToString 320 = "320" := by decide
  have hq180 : qToString 180 = "180" := by decide
  refine ⟨h320, ?_, ?_, ?_, ?_, ?_, ?_⟩
  · simp [parseSvgMeta, Elem.tag, Elem.getAttribute, Elem.attrs, List.find?, strToLower,
      h320, hq320, hq180]
  · simp [parseSvgMeta, Elem.tag, Elem.getAttribute, Elem.attrs, List.find?, strToLower, h320]
  · simp [parseSvgMeta, Elem.tag, Elem.getAttribute, Elem.attrs, List.find?, strToLower, h320]
  · simp [parseSvgViewBox, Elem.getAttribute, Elem.setAttribute, Elem.attrs, List.find?,
      parseLength4, hq160, hq120, hq0]
  · simp [parseSvgViewBox, Elem.getAttribute, Elem.setAttribute, Elem.attrs, List.find?,
      parseLength4, hq160, hq120, hq0]
  · simp [parseSvgViewBox, Elem.getAttribute, Elem.attrs, parseLength4]

/-! ## Claim C5: percentage values are not rejected -/

theorem takeWhile_app_last (p : Char → Bool) (x : Char) (hx : p x = false) :
    ∀ cs : List Char, (cs ++ [x]).takeWhile p = cs.takeWhile p := by
  intro cs
  induction cs with
  | nil => simp [List.takeWhile, hx]
  | cons c rest ih =>
      by_cases hc : p c
      · simp [List.takeWhile_cons, hc, ih]
      · simp [List.takeWhile_cons, hc]

theorem dropWhile_app_last (p : Char → Bool) (x : Char) (hx : p x = false) :
    ∀ cs : List Char, (cs ++ [x]).dropWhile p = cs.dropWhile p ++ [x] := by
  intro cs
  induction cs with
  | nil => simp [List.dropWhile, hx]
  | cons c rest ih =>
      by_cases hc : p c
      · simp [List.dropWhile_cons, hc, ih]
      · simp [List.dropWhile_cons, hc]

/-- A trailing percent sign does not change the anchored numeral match. -/
theorem numAt_pct (sign : ℚ) (cs : List Char) : numAt sign (cs ++ ['%']) = numAt sign cs := by
  have hpct : ('%').isDigit = false := by decide
  unfold numAt
  rw [takeWhile_app_last _ _ hpct, dropWhile_app_last _ _ hpct]
  cases hd : cs.dropWhile (·.isDigit) with
  | nil => simp
  | cons d tail =>
      by_cases hdot : d = '.'
      · subst hdot
        simp only [List.cons_append, List.head?_cons, List.tail_cons, if_pos rfl]
        rw [takeWhile_app_last _ _ hpct]
      · simp [hdot]

/-- A trailing percent sign does not change the signed anchored match. -/
theorem tryAt_pct (cs : List Char) : tryAt (cs ++ ['%']) = tryAt cs := by
  unfold tryAt
  cases cs with
  | nil =>
      simp only [List.nil_append, List.head?_cons, List.head?_nil]
      rw [if_neg (by decide), if_neg (by simp)]
      simpa using numAt_pct 1 []
  | cons c rest =>
      by_cases hc : c = '-'
      · subst hc
        simp only [List.cons_append, List.head?_cons, List.tail_cons, if_pos rfl]
        exact numAt_pct (-1) rest
      · simp only [List.cons_append, List.head?_cons]
        rw [if_neg (by simp [hc]), if_neg (by simp [hc])]
        exact numAt_pct 1 (c :: rest)

/-- A trailing percent sign does not change the first numeral match. -/
theorem matchNumFrom_pct : ∀ cs : List Char, matchNumFrom (cs ++ ['%']) = matchNumFrom cs := by
  intro cs
  induction cs with
  | nil => simp [matchNumFrom, show tryAt ['%'] = none from rfl]
  | cons c rest ih =>
      rw [List.cons_append, matchNumFrom, show c :: (rest ++ ['%']) = (c :: rest) ++ ['%'] from rfl,
        tryAt_pct (c :: rest), matchNumFrom]
      cases tryAt (c :: rest) with
      | none => exact ih
      | some q => rfl

/-- C5 counterexample: percentage width/height attributes are *used*
(their numeric prefix is parsed), overriding the viewBox — the resolved
width is 100, not 320. -/
theorem percentage_not_rejected_counterexample :
    resolveSize (some "100%") (some "100%") (some "0 0 320 180") = (100, 100) ∧
    ¬((resolveSize (some "100%") (some "100%") (some "0 0 320 180")).1 = 320) := by
  have h : resolveSize (some "100%") (some "100%") (some "0 0 320 180") = (100, 100) := by
    simp [resolveSize, parseLength, matchNumFrom, tryAt, numAt, mantissaVal, digitsVal,
      truthyNum, unfalsyD]
  refine ⟨h, ?_⟩
  rw [h]
  norm_num

/-- C5 amended: a percentage value is treated like any other
numeric-prefixed string — the trailing `%` is ignored by the length
parsers, and the resolved canvas dimension comes from the percentage's
number, not the viewBox or the default. -/
theorem percentage_accepted_amended :
    (∀ s : String, parseLength (some (s ++ "%")) = parseLength (some s)) ∧
    parseLength (some "100%") = some 100 ∧
    parseNumericTools (some "100%") = some 100 ∧
    resolveSize (some "50%") (some "25%") (some "0 0 320 180") = (50, 25) := by
  refine ⟨?_, ?_, ?_, ?_⟩
  · intro s
    by_cases hs : s = ""
    · subst hs
      simp [parseLength, matchNumFrom, show tryAt ['%'] = none from rfl,
        show ("" ++ "%" : String) = "%" from rfl]
    · have hne : ¬(s ++ "%" = "") := by
        intro h
        have : (s ++ "%").data = [] := by rw [h]
        simp at this
      simp only [parseLength, if_neg hs, if_neg hne]
      have hdata : (s ++ "%").data = s.data ++ ['%'] := by
        simp
      rw [hdata, matchNumFrom_pct]
  · simp [parseLength, matchNumFrom, tryAt, numAt, mantissaVal, digitsVal]
  · simp [parseNumericTools, strTrim, jsParseFloat, mantissaVal, digitsVal]
  · simp [resolveSize, parseLength, matchNumFrom, tryAt, numAt, mantissaVal, digitsVal,
      truthyNum, unfalsyD]

/-! ## Claim C10: aspect-ratio-locked dimension edits -/

/-- C10 counterexample: with the lock on and stored ratio 2, typing
`-100` into the part_004 width input overwrites the height input with
`"-50"` — a finite but strictly negative derived value (the claim allows
only finite strictly-positive overwrites). -/
theorem handleWidthChange4_negative_counterexample :
    handleWidthChange4 "-100" true 2 "120" = "-50" ∧
    jsParseFloat "-50" = some (-50) ∧ ((-50 : ℚ) < 0) ∧ "-50" ≠ "120" := by
  refine ⟨?_, ?_, by norm_num, by decide⟩
  · have hp : parseNumeric4 "-100" = some (-100) := by
      simp [parseNumeric4, strTrim, jsParseFloat, mantissaVal, digitsVal]
    have hfix : toFixedStr 3 (-50 : ℚ) = "-50.000" := by
      have hfloor : (⌊(-50 : ℚ) * 10 ^ 3 + 1 / 2⌋ : ℤ) = -50000 := by norm_num
      simp only [toFixedStr, hfloor]
      decide
    simp only [handleWidthChange4, Bool.not_true, Bool.false_eq_true, if_false, hp]
    rw [if_neg (by norm_num : ¬(2 : ℚ) = 0), show ((-100 : ℚ) / 2) = -50 by norm_num, hfix]
    decide
  · simp [jsParseFloat, mantissaVal, digitsVal]

/-- C10 amended: the part_003 handler overwrites the height input only
with the formatted value of a strictly positive derived number, leaving
it unchanged on any degenerate edit; the part_004 handler has no
positivity check — it also writes zero (and negative values, see the
counterexample). -/
theorem handleWidthChange_positive_amended :
    (∀ (value : String) (maintainAspect : Bool) (aspect : ℚ) (h0 : String),
      handleWidthChange3 value maintainAspect aspect h0 = h0 ∨
      ∃ q : ℚ, 0 < q ∧ handleWidthChange3 value maintainAspect aspect h0 = formatNumberForInput q) ∧
    handleWidthChange4 "0" true 2 "50" = "0" := by
  constructor
  · intro value maintainAspect aspect h0
    unfold handleWidthChange3
    cases maintainAspect with
    | false => simp
    | true =>
        simp only [Bool.not_true, Bool.false_eq_true, if_false]
        cases jsParseFloat value with
        | none => left; rfl
        | some numeric =>
            by_cases ha : aspect = 0
            · left; simp [ha]
            · by_cases hpos : 0 < numeric / aspect
              · right
                exact ⟨numeric / aspect, hpos, by simp [ha, hpos]⟩
              · left; simp [ha, hpos]
  · have hp : parseNumeric4 "0" = some 0 := by
      simp [parseNumeric4, strTrim, jsParseFloat, mantissaVal, digitsVal]
    have hfix : toFixedStr 3 (0 : ℚ) = "0.000" := by
      have hfloor : (⌊(0 : ℚ) * 10 ^ 3 + 1 / 2⌋ : ℤ) = 0 := by norm_num
      simp only [toFixedStr, hfloor]
      decide
    simp only [handleWidthChange4, Bool.not_true, Bool.false_eq_true, if_false, hp]
    rw [if_neg (by norm_num : ¬(2 : ℚ) = 0), show ((0 : ℚ) / 2) = 0 by norm_num, hfix]
    decide

/-! ## Claim C6: the empty-palette default of the selectors -/

/-- Strict channelwise comparison of colors; any lightness measure that
is strictly monotone in every channel orders two channelwise-comparable
colors the same way. -/
def channelwiseLt (a b : Rgb) : Bool :=
  decide (a.r < b.r ∧ a.g < b.g ∧ a.b < b.b)

/-- C6 counterexample: on the empty palette, `chooseNeutralBackground`
returns `"#f5f5f5"` — the *first* entry of its ramp, which is strictly
channelwise lighter than every other entry, i.e. the lightest, not the
second-lightest. -/
theorem chooseNeutralBackground_empty_counterexample :
    chooseNeutralBackground [] = "#f5f5f5" ∧
    NEUTRAL_PALETTE1.head? = some "#f5f5f5" ∧
    (NEUTRAL_PALETTE1.tail.all fun hx =>
      match hexToRgb1 hx, hexToRgb1 "#f5f5f5" with
      | some rgb, some top => channelwiseLt rgb top
      | _, _ => false) = true := by
  refine ⟨?_, by decide, by decide⟩
  show (neutralPalette1.head?.map Prod.fst).getD "" = "#f5f5f5"
  decide

/-- C6 amended: `chooseNeutralColor` (the selector matching the spec's
scoring) does return the ramp's second entry `"#f3f4f6"` on the empty
palette, and that entry is the second-lightest (exactly one ramp entry —
`"#f8fafc"` — is channelwise lighter, and it is channelwise comparable
with every other entry); but `chooseNeutralBackground` returns its ramp's
lightest entry `"#f5f5f5"`, and `computeNeutralBackground` returns the
fixed fallback `("#f5f5f5", 0.94)` whatever the platform color resolver
does. -/
theorem selector_empty_palette_amended :
    chooseNeutralColor [] = "#f3f4f6" ∧
    (neutralCandidates2.map Prod.fst).get? 1 = some "#f3f4f6" ∧
    (neutralCandidates2.filter fun cand =>
      match hexToRgb2 "#f3f4f6" with
      | some me => channelwiseLt me cand.2
      | none => false).length = 1 ∧
    (neutralCandidates2.all fun cand =>
      cand.1 == "#f3f4f6" ||
        (match hexToRgb2 "#f3f4f6" with
          | some me => channelwiseLt me cand.2 || channelwiseLt cand.2 me
          | none => false)) = true ∧
    chooseNeutralBackground [] = "#f5f5f5" ∧
    (∀ resolver : String → Option Rgb,
      computeNeutralBackground resolver [] = ("#f5f5f5", 94 / 100)) := by
  refine ⟨?_, by decide, by decide, by decide, ?_, fun _ => rfl⟩
  · show ((neutralCandidates2.get? 1).map Prod.fst).getD "#f3f4f6" = "#f3f4f6"
    decide
  · show (neutralPalette1.head?.map Prod.fst).getD "" = "#f5f5f5"
    decide

/-! ## Claim C2: what the sanitizers remove -/

mutual

theorem findSvgElem_tag : ∀ (e : Elem) (svg : Elem), findSvgElem e = some svg → svg.tag = "svg"
  | .mk t a b cs, svg => by
      intro h
      rw [findSvgElem] at h
      split at h
      · cases h
        simp only [Elem.tag]
        next heq => exact eq_of_beq heq
      · exact findSvgList_tag cs svg h

theorem findSvgList_tag : ∀ (l : List Elem) (svg : Elem), findSvgList l = some svg → svg.tag = "svg"
  | [], svg => by intro h; simp [findSvgList] at h
  | c :: rest, svg => by
      intro h
      rw [findSvgList] at h
      split at h
      · next heq => cases h; exact findSvgElem_tag c _ heq
      · exact findSvgList_tag rest svg h

end

mutual

theorem noScript_removeScriptsElem : ∀ (e : Elem), ¬e.tag = "script" →
    noScriptB (removeScriptsElem e) = true
  | .mk t a b cs => by
      intro h
      rw [removeScriptsElem, noScriptB]
      simp only [Elem.tag] at h
      simp [h, noScript_removeScriptsList cs]

theorem noScript_removeScriptsList : ∀ (l : List Elem),
    noScriptListB (removeScriptsList l) = true
  | [] => rfl
  | c :: rest => by
      rw [removeScriptsList]
      split
      · exact noScript_removeScriptsList rest
      · next hc =>
          rw [noScriptListB]
          have hc' : ¬c.tag = "script" := by simpa using hc
          simp [noScript_removeScriptsElem c hc', noScript_removeScriptsList rest]

end

mutual

theorem noScript_stripOnElem : ∀ (e : Elem), noScriptB (stripOnElem e) = noScriptB e
  | .mk t a b cs => by
      rw [stripOnElem, noScriptB, noScriptB, noScript_stripOnList cs]

theorem noScript_stripOnList : ∀ (l : List Elem), noScriptListB (stripOnList l) = noScriptListB l
  | [] => rfl
  | c :: rest => by
      rw [stripOnList, noScriptListB, noScriptListB, noScript_stripOnElem c,
        noScript_stripOnList rest]

end

theorem noOnAttrs_stripOnAttrs (a : List (String × String)) :
    (stripOnAttrs a).all (fun p => !(strStartsWith (strToLower p.1) "on")) = true := by
  simp only [List.all_eq_true]
  intro p hp
  have := List.of_mem_filter hp
  simpa using this

mutual

theorem allNoOn_stripOnElem : ∀ (e : Elem), allNoOnB (stripOnElem e) = true
  | .mk t a b cs => by
      rw [stripOnElem, allNoOnB]
      have h1 : noOnAttrsB (.mk t (stripOnAttrs a) b (stripOnList cs)) = true := by
        simp only [noOnAttrsB, Elem.attrs]
        exact noOnAttrs_stripOnAttrs a
      simp [h1, allNoOn_stripOnList cs]

theorem allNoOn_stripOnList : ∀ (l : List Elem), allNoOnListB (stripOnList l) = true
  | [] => rfl
  | c :: rest => by
      rw [stripOnList, allNoOnListB]
      simp [allNoOn_stripOnElem c, allNoOn_stripOnList rest]

end

/-- `setAttribute` changes neither the tag nor the children. -/
theorem setAttribute_tag_children (e : Elem) (n v : String) :
    (e.setAttribute n v).tag = e.tag ∧ (e.setAttribute n v).children = e.children := by
  cases e with
  | mk t a b cs =>
      rw [Elem.setAttribute]
      split <;> exact ⟨rfl, rfl⟩

theorem noScript_setAttribute (e : Elem) (n v : String) (h : noScriptB e = true) :
    noScriptB (e.setAttribute n v) = true := by
  cases e with
  | mk t a b cs =>
      rw [Elem.setAttribute]
      rw [noScriptB] at h
      split <;> (rw [noScriptB]; exact h)

theorem belowRootNoOn_setAttribute (e : Elem) (n v : String)
    (h : belowRootNoOnB e = true) : belowRootNoOnB (e.setAttribute n v) = true := by
  cases e with
  | mk t a b cs =>
      rw [Elem.setAttribute]
      rw [belowRootNoOnB, Elem.children] at h
      split <;> (rw [belowRootNoOnB, Elem.children]; exact h)

/-- C2 amended: whenever `sanitizeSvgMarkup` produces output, the output
tree contains no `script` element anywhere, and no element *strictly
below the root* carries an attribute whose name starts with `on`.  (The
root's own `on*` attributes survive — see the counterexample.) -/
theorem sanitizeSvgMarkup_amended :
    ∀ (p : DomParse) (w h : Option ℚ) (u : String),
      (sanitizeSvgMarkup p w h u).all (fun e => noScriptB e && belowRootNoOnB e) = true := by
  intro p w h u
  cases p with
  | err m => rfl
  | ok root =>
      rw [sanitizeSvgMarkup.eq_def]
      cases hf : findSvgElem root with
      | none => simp [hf]
      | some svg =>
          simp only [hf, Option.all_some]
          have htag : svg.tag = "svg" := findSvgElem_tag root svg hf
          have htag' : ¬svg.tag = "script" := by rw [htag]; decide
          -- the tree after script removal and on-stripping
          have hscript0 : noScriptB (removeScriptsElem svg) = true :=
            noScript_removeScriptsElem svg htag'
          have hscript1 : noScriptB (stripOnBelowRoot (removeScriptsElem svg)) = true := by
            cases hrs : removeScriptsElem svg with
            | mk t a b cs =>
                rw [stripOnBelowRoot]
                rw [hrs] at hscript0
                rw [noScriptB] at hscript0 ⊢
                rw [noScript_stripOnList cs]
                exact hscript0
          have hbelow1 : belowRootNoOnB (stripOnBelowRoot (removeScriptsElem svg)) = true := by
            cases hrs : removeScriptsElem svg with
            | mk t a b cs =>
                rw [stripOnBelowRoot, belowRootNoOnB, Elem.children]
                exact allNoOn_stripOnList cs
          -- the subsequent attribute writes keep both invariants
          set e0 := stripOnBelowRoot (removeScriptsElem svg) with he0
          set e1 := (e0.setAttribute "width" (qToString (match w with | some w' => if 0 < w' then w' else 200 | none => 200) ++ u)) with he1
          have hs1 : noScriptB e1 = true := noScript_setAttribute _ _ _ hscript1
          have hb1 : belowRootNoOnB e1 = true := belowRootNoOn_setAttribute _ _ _ hbelow1
          set e2 := (e1.setAttribute "height" (qToString (match h with | some h' => if 0 < h' then h' else 120 | none => 120) ++ u)) with he2
          have hs2 : noScriptB e2 = true := noScript_setAttribute _ _ _ hs1
          have hb2 : belowRootNoOnB e2 = true := belowRootNoOn_setAttribute _ _ _ hb1
          by_cases hvb : e2.hasAttribute "viewBox" = true
          · simp only [hvb, if_true]
            simp [hs2, hb2, noScript_setAttribute, belowRootNoOn_setAttribute]
          · simp only [hvb]
            simp [hs2, hb2, noScript_setAttribute, belowRootNoOn_setAttribute]

/-- C2 counterexample: an input that parses successfully and carries an
event-handler attribute *on the root* keeps it: the `TreeWalker` pass of
`sanitizeSvgMarkup` starts below the root, and part_003's `sanitizeSvg`
(which only deletes `<script>…</script>` blocks) returns the markup
verbatim — both sanitized outputs still contain an `onload` attribute. -/
theorem sanitize_keeps_root_onload_counterexample :
    ((sanitizeSvgMarkup
        (.ok (.mk "svg" [("onload", "alert(1)")] none [.mk "rect" [] none []]))
        (some 10) (some 20) "px").map fun e => e.getAttribute "onload") =
      some (some "alert(1)") ∧
    sanitizeSvg "<svg onload=\"alert(1)\"></svg>" = "<svg onload=\"alert(1)\"></svg>" := by
  constructor
  · have h10 : ¬(10 : ℚ) < 0 := by norm_num
    simp only [sanitizeSvgMarkup, findSvgElem, removeScriptsElem, removeScriptsList,
      stripOnBelowRoot, stripOnElem, stripOnList, stripOnAttrs]
    norm_num [Elem.setAttribute, Elem.hasAttribute, Elem.attrs, Elem.getAttribute,
      List.find?, strStartsWith, strToLower]
  · decide

/-! ## Claim C9: idempotence of the background shape pruner -/

/-- The pruning pass never changes an element's own tag, attributes or
bounding box — only its descendants. -/
theorem pruneElem_preserves (w h minX minY tol : ℚ) (inDefs : Bool) (e : Elem) :
    (pruneElem w h minX minY tol inDefs e).tag = e.tag ∧
    (pruneElem w h minX minY tol inDefs e).attrs = e.attrs ∧
    (pruneElem w h minX minY tol inDefs e).bbox = e.bbox := by
  cases e with
  | mk t a b cs => exact ⟨rfl, rfl, rfl⟩

/-- The removal predicate only reads the element's own tag, attributes
and bounding box, all preserved by the pass. -/
theorem matchesCanvas_pruneElem (w h minX minY tol : ℚ) (inDefs : Bool) (e : Elem) :
    matchesCanvas w h minX minY tol (pruneElem w h minX minY tol inDefs e) =
      matchesCanvas w h minX minY tol e := by
  obtain ⟨ht, ha, hb⟩ := pruneElem_preserves w h minX minY tol inDefs e
  rw [matchesCanvas, matchesCanvas, ht, hb]
  have hga : ∀ n, (pruneElem w h minX minY tol inDefs e).getAttribute n = e.getAttribute n := by
    intro n
    rw [Elem.getAttribute, Elem.getAttribute, ha]
  rw [hga, hga, hga, hga]

mutual

theorem pruneElem_idem (w h minX minY tol : ℚ) (inDefs : Bool) :
    ∀ e : Elem, pruneElem w h minX minY tol inDefs (pruneElem w h minX minY tol inDefs e) =
      pruneElem w h minX minY tol inDefs e
  | .mk t a b cs => by
      rw [pruneElem, pruneElem, pruneList_idem w h minX minY tol (inDefs || t == "defs") cs]

theorem pruneList_idem (w h minX minY tol : ℚ) (inDefs : Bool) :
    ∀ l : List Elem, pruneList w h minX minY tol inDefs (pruneList w h minX minY tol inDefs l) =
      pruneList w h minX minY tol inDefs l
  | [] => rfl
  | c :: rest => by
      rw [pruneList]
      split
      · exact pruneList_idem w h minX minY tol inDefs rest
      · next hc =>
          rw [pruneList]
          have hcond :
              ¬((isPruneCandidate (pruneElem w h minX minY tol inDefs c).tag && !inDefs &&
                  matchesCanvas w h minX minY tol (pruneElem w h minX minY tol inDefs c)) = true) := by
            rw [(pruneElem_preserves w h minX minY tol inDefs c).1,
              matchesCanvas_pruneElem w h minX minY tol inDefs c]
            exact hc
          rw [if_neg hcond, pruneElem_idem w h minX minY tol inDefs c,
            pruneList_idem w h minX minY tol inDefs rest]

end

/-- C9: running the background shape pruner a second time on its own
output changes nothing — in particular it removes 0 additional shapes,
for every document and every resolved canvas metrics. -/
theorem removeCanvasSizedShapes_idempotent :
    ∀ (m : CanvasMetricsQ) (svgEl : Elem),
      removeCanvasSizedShapes m (removeCanvasSizedShapes m svgEl) =
        removeCanvasSizedShapes m svgEl := by
  intro m svgEl
  cases hw : m.width with
  | none => simp [removeCanvasSizedShapes.eq_def, hw]
  | some w =>
      cases hh : m.height with
      | none => simp [removeCanvasSizedShapes.eq_def, hw, hh]
      | some h => simp [removeCanvasSizedShapes.eq_def, hw, hh, pruneElem_idem]

/-! ## Claim C7: the selector score is not distance-only

Certified rational bounds on the `x ^ 2.4` linearization: for positive
rational `x`, the value `x ^ 0.4 = (x ^ 2) ^ (1/5)` lies between any two
rationals whose fifth powers bracket `x ^ 2`. -/

theorem rpow_twofifth_bounds (x q1 q2 : ℚ) (hx : 0 < x) (_hq1 : 0 ≤ q1) (hq2 : 0 ≤ q2)
    (h1 : q1 ^ 5 ≤ x ^ 2) (h2 : x ^ 2 ≤ q2 ^ 5) :
    ((x ^ 2 * q1 : ℚ) : ℝ) ≤ ((x : ℚ) : ℝ) ^ (2.4 : ℝ) ∧
      ((x : ℚ) : ℝ) ^ (2.4 : ℝ) ≤ ((x ^ 2 * q2 : ℚ) : ℝ) := by
  have hxR : (0 : ℝ) < ((x : ℚ) : ℝ) := by exact_mod_cast hx
  have hxR0 : (0 : ℝ) ≤ ((x : ℚ) : ℝ) := le_of_lt hxR
  set Y : ℝ := ((x : ℚ) : ℝ) ^ ((2 : ℝ) / 5) with hY
  have hYnn : 0 ≤ Y := Real.rpow_nonneg hxR0 _
  have hY5 : Y ^ (5 : ℕ) = ((x : ℚ) : ℝ) ^ (2 : ℕ) := by
    rw [hY, ← Real.rpow_natCast (((x : ℚ) : ℝ) ^ ((2 : ℝ) / 5)) 5, ← Real.rpow_mul hxR0,
      ← Real.rpow_natCast ((x : ℚ) : ℝ) 2]
    norm_num
  have hq1Y : ((q1 : ℚ) : ℝ) ≤ Y := by
    apply le_of_pow_le_pow_left₀ (n := 5) (by norm_num) hYnn
    rw [hY5]
    exact_mod_cast h1
  have hq2Y : Y ≤ ((q2 : ℚ) : ℝ) := by
    apply le_of_pow_le_pow_left₀ (n := 5) (by norm_num) (by exact_mod_cast hq2)
    rw [hY5]
    exact_mod_cast h2
  have h24 : ((x : ℚ) : ℝ) ^ (2.4 : ℝ) = ((x : ℚ) : ℝ) ^ (2 : ℕ) * Y := by
    rw [hY, ← Real.rpow_natCast ((x : ℚ) : ℝ) 2, ← Real.rpow_add hxR]
    norm_num
  have hXsq : (0 : ℝ) ≤ ((x : ℚ) : ℝ) ^ (2 : ℕ) := by positivity
  constructor
  · calc ((x ^ 2 * q1 : ℚ) : ℝ) = ((x : ℚ) : ℝ) ^ (2 : ℕ) * ((q1 : ℚ) : ℝ) := by
          push_cast
          ring
      _ ≤ ((x : ℚ) : ℝ) ^ (2 : ℕ) * Y := by exact mul_le_mul_of_nonneg_left hq1Y hXsq
      _ = ((x : ℚ) : ℝ) ^ (2.4 : ℝ) := h24.symm
  · calc ((x : ℚ) : ℝ) ^ (2.4 : ℝ) = ((x : ℚ) : ℝ) ^ (2 : ℕ) * Y := h24
      _ ≤ ((x : ℚ) : ℝ) ^ (2 : ℕ) * ((q2 : ℚ) : ℝ) := by
          exact mul_le_mul_of_nonneg_left hq2Y hXsq
      _ = ((x ^ 2 * q2 : ℚ) : ℝ) := by
          push_cast
          ring

/-- Rational bracketing of `toLinear` on a channel in the power branch. -/
theorem toLinear_bounds_of (ch x q1 q2 L U : ℚ)
    (hbr : ¬((ch / 255 : ℚ) ≤ 3928 / 100000))
    (hx : ((ch / 255 + 55 / 1000) / (1055 / 1000) : ℚ) = x)
    (hx0 : 0 < x) (hq1 : 0 ≤ q1) (hq2 : 0 ≤ q2)
    (h1 : q1 ^ 5 ≤ x ^ 2) (h2 : x ^ 2 ≤ q2 ^ 5)
    (hL : L ≤ x ^ 2 * q1) (hU : x ^ 2 * q2 ≤ U) :
    ((L : ℚ) : ℝ) ≤ toLinear ch ∧ toLinear ch ≤ ((U : ℚ) : ℝ) := by
  have heq : toLinear ch = ((x : ℚ) : ℝ) ^ (2.4 : ℝ) := by
    simp only [toLinear]
    rw [if_neg hbr, hx]
  obtain ⟨hlo, hhi⟩ := rpow_twofifth_bounds x q1 q2 hx0 hq1 hq2 h1 h2
  rw [heq]
  exact ⟨le_trans (by exact_mod_cast hL) hlo, le_trans hhi (by exact_mod_cast hU)⟩

/-- Rational bracketing of the luminance of a color from brackets of its
linearized channels. -/
theorem getLuminance_bounds_of (r g b lr ur lg ug lb ub L U : ℚ)
    (hr : ((lr : ℚ) : ℝ) ≤ toLinear r ∧ toLinear r ≤ ((ur : ℚ) : ℝ))
    (hg : ((lg : ℚ) : ℝ) ≤ toLinear g ∧ toLinear g ≤ ((ug : ℚ) : ℝ))
    (hb : ((lb : ℚ) : ℝ) ≤ toLinear b ∧ toLinear b ≤ ((ub : ℚ) : ℝ))
    (hL : L ≤ 2126 / 10000 * lr + 7152 / 10000 * lg + 722 / 10000 * lb)
    (hU : 2126 / 10000 * ur + 7152 / 10000 * ug + 722 / 10000 * ub ≤ U) :
    ((L : ℚ) : ℝ) ≤ getLuminance ⟨r, g, b⟩ ∧ getLuminance ⟨r, g, b⟩ ≤ ((U : ℚ) : ℝ) := by
  have hL' := (Rat.cast_le (K := ℝ)).mpr hL
  have hU' := (Rat.cast_le (K := ℝ)).mpr hU
  push_cast at hL' hU'
  have e1 : (0.2126 : ℝ) = 2126 / 10000 := by norm_num
  have e2 : (0.7152 : ℝ) = 7152 / 10000 := by norm_num
  have e3 : (0.0722 : ℝ) = 722 / 10000 := by norm_num
  simp only [getLuminance, e1, e2, e3]
  constructor
  · linarith [hr.1, hg.1, hb.1, hL']
  · linarith [hr.2, hg.2, hb.2, hU']
theorem linBound_148 :
    ((7403/25000 : ℚ) : ℝ) ≤ toLinear 148 ∧ toLinear 148 ≤ ((29617/100000 : ℚ) : ℝ) :=
  toLinear_bounds_of 148 (6481/10761) (2041/2500) (1633/2000)
    (7403/25000) (29617/100000) (by norm_num) (by norm_num) (by norm_num)
    (by norm_num) (by norm_num) (by norm_num) (by norm_num) (by norm_num) (by norm_num)

theorem linBound_163 :
    ((18311/50000 : ℚ) : ℝ) ≤ toLinear 163 ∧ toLinear 163 ≤ ((9157/25000 : ℚ) : ℝ) :=
  toLinear_bounds_of 163 (7081/10761) (4229/5000) (8459/10000)
    (18311/50000) (9157/25000) (by norm_num) (by norm_num) (by norm_num)
    (by norm_num) (by norm_num) (by norm_num) (by norm_num) (by norm_num) (by norm_num)

theorem linBound_184 :
    ((47929/100000 : ℚ) : ℝ) ≤ toLinear 184 ∧ toLinear 184 ≤ ((9587/20000 : ℚ) : ℝ) :=
  toLinear_bounds_of 184 (7921/10761) (4423/5000) (8847/10000)
    (47929/100000) (9587/20000) (by norm_num) (by norm_num) (by norm_num)
    (by norm_num) (by norm_num) (by norm_num) (by norm_num) (by norm_num) (by norm_num)

theorem linBound_203 :
    ((11943/20000 : ℚ) : ℝ) ≤ toLinear 203 ∧ toLinear 203 ≤ ((59723/100000 : ℚ) : ℝ) :=
  toLinear_bounds_of 203 (8681/10761) (1147/1250) (9177/10000)
    (11943/20000) (59723/100000) (by norm_num) (by norm_num) (by norm_num)
    (by norm_num) (by norm_num) (by norm_num) (by norm_num) (by norm_num) (by norm_num)

theorem linBound_209 :
    ((63757/100000 : ℚ) : ℝ) ≤ toLinear 209 ∧ toLinear 209 ≤ ((12753/20000 : ℚ) : ℝ) :=
  toLinear_bounds_of 209 (8921/10761) (9277/10000) (4639/5000)
    (63757/100000) (12753/20000) (by norm_num) (by norm_num) (by norm_num)
    (by norm_num) (by norm_num) (by norm_num) (by norm_num) (by norm_num) (by norm_num)

theorem linBound_213 :
    ((33267/50000 : ℚ) : ℝ) ≤ toLinear 213 ∧ toLinear 213 ≤ ((33271/50000 : ℚ) : ℝ) :=
  toLinear_bounds_of 213 (3027/3587) (9343/10000) (584/625)
    (33267/50000) (33271/50000) (by norm_num) (by norm_num) (by norm_num)
    (by norm_num) (by norm_num) (by norm_num) (by norm_num) (by norm_num) (by norm_num)

theorem linBound_219 :
    ((70833/100000 : ℚ) : ℝ) ≤ toLinear 219 ∧ toLinear 219 ≤ ((70841/100000 : ℚ) : ℝ) :=
  toLinear_bounds_of 219 (3107/3587) (9441/10000) (4721/5000)
    (70833/100000) (70841/100000) (by norm_num) (by norm_num) (by norm_num)
    (by norm_num) (by norm_num) (by norm_num) (by norm_num) (by norm_num) (by norm_num)

theorem linBound_229 :
    ((19587/25000 : ℚ) : ℝ) ≤ toLinear 229 ∧ toLinear 229 ≤ ((39179/50000 : ℚ) : ℝ) :=
  toLinear_bounds_of 229 (9721/10761) (9601/10000) (4801/5000)
    (19587/25000) (39179/50000) (by norm_num) (by norm_num) (by norm_num)
    (by norm_num) (by norm_num) (by norm_num) (by norm_num) (by norm_num) (by norm_num)

theorem linBound_231 :
    ((79909/100000 : ℚ) : ℝ) ≤ toLinear 231 ∧ toLinear 231 ≤ ((39959/50000 : ℚ) : ℝ) :=
  toLinear_bounds_of 231 (3267/3587) (9633/10000) (4817/5000)
    (79909/100000) (39959/50000) (by norm_num) (by norm_num) (by norm_num)
    (by norm_num) (by norm_num) (by norm_num) (by norm_num) (by norm_num) (by norm_num)

theorem linBound_235 :
    ((8307/10000 : ℚ) : ℝ) ≤ toLinear 235 ∧ toLinear 235 ≤ ((2077/2500 : ℚ) : ℝ) :=
  toLinear_bounds_of 235 (9961/10761) (1939/2000) (606/625)
    (8307/10000) (2077/2500) (by norm_num) (by norm_num) (by norm_num)
    (by norm_num) (by norm_num) (by norm_num) (by norm_num) (by norm_num) (by norm_num)

theorem linBound_243 :
    ((717/800 : ℚ) : ℝ) ≤ toLinear 243 ∧ toLinear 243 ≤ ((17927/20000 : ℚ) : ℝ) :=
  toLinear_bounds_of 243 (3427/3587) (9819/10000) (491/500)
    (717/800) (17927/20000) (by norm_num) (by norm_num) (by norm_num)
    (by norm_num) (by norm_num) (by norm_num) (by norm_num) (by norm_num) (by norm_num)

theorem linBound_244 :
    ((45231/50000 : ℚ) : ℝ) ≤ toLinear 244 ∧ toLinear 244 ≤ ((11309/12500 : ℚ) : ℝ) :=
  toLinear_bounds_of 244 (10321/10761) (4917/5000) (1967/2000)
    (45231/50000) (11309/12500) (by norm_num) (by norm_num) (by norm_num)
    (by norm_num) (by norm_num) (by norm_num) (by norm_num) (by norm_num) (by norm_num)

theorem linBound_245 :
    ((11413/12500 : ℚ) : ℝ) ≤ toLinear 245 ∧ toLinear 245 ≤ ((45657/50000 : ℚ) : ℝ) :=
  toLinear_bounds_of 245 (10361/10761) (9849/10000) (197/200)
    (11413/12500) (45657/50000) (by norm_num) (by norm_num) (by norm_num)
    (by norm_num) (by norm_num) (by norm_num) (by norm_num) (by norm_num) (by norm_num)

theorem linBound_246 :
    ((1843/2000 : ℚ) : ℝ) ≤ toLinear 246 ∧ toLinear 246 ≤ ((576/625 : ℚ) : ℝ) :=
  toLinear_bounds_of 246 (3467/3587) (1233/1250) (1973/2000)
    (1843/2000) (576/625) (by norm_num) (by norm_num) (by norm_num)
    (by norm_num) (by norm_num) (by norm_num) (by norm_num) (by norm_num) (by norm_num)

theorem linBound_248 :
    ((93867/100000 : ℚ) : ℝ) ≤ toLinear 248 ∧ toLinear 248 ≤ ((46939/50000 : ℚ) : ℝ) :=
  toLinear_bounds_of 248 (10481/10761) (1979/2000) (1237/1250)
    (93867/100000) (46939/50000) (by norm_num) (by norm_num) (by norm_num)
    (by norm_num) (by norm_num) (by norm_num) (by norm_num) (by norm_num) (by norm_num)

theorem linBound_250 :
    ((19119/20000 : ℚ) : ℝ) ≤ toLinear 250 ∧ toLinear 250 ≤ ((19121/20000 : ℚ) : ℝ) :=
  toLinear_bounds_of 250 (10561/10761) (397/400) (4963/5000)
    (19119/20000) (19121/20000) (by norm_num) (by norm_num) (by norm_num)
    (by norm_num) (by norm_num) (by norm_num) (by norm_num) (by norm_num) (by norm_num)

theorem linBound_252 :
    ((48671/50000 : ℚ) : ℝ) ≤ toLinear 252 ∧ toLinear 252 ≤ ((12169/12500 : ℚ) : ℝ) :=
  toLinear_bounds_of 252 (3547/3587) (1991/2000) (2489/2500)
    (48671/50000) (12169/12500) (by norm_num) (by norm_num) (by norm_num)
    (by norm_num) (by norm_num) (by norm_num) (by norm_num) (by norm_num) (by norm_num)

theorem lumBound_A :
    ((95353/100000 : ℚ) : ℝ) ≤ getLuminance ⟨248, 250, 252⟩ ∧
      getLuminance ⟨248, 250, 252⟩ ≤ ((23841/25000 : ℚ) : ℝ) :=
  getLuminance_bounds_of 248 250 252 (93867/100000) (46939/50000)
    (19119/20000) (19121/20000)
    (48671/50000) (12169/12500)
    (95353/100000) (23841/25000)
    linBound_248 linBound_250 linBound_252 (by norm_num) (by norm_num)

theorem lumBound_B :
    ((18081/20000 : ℚ) : ℝ) ≤ getLuminance ⟨243, 244, 246⟩ ∧
      getLuminance ⟨243, 244, 246⟩ ≤ ((5651/6250 : ℚ) : ℝ) :=
  getLuminance_bounds_of 243 244 246 (717/800) (17927/20000)
    (45231/50000) (11309/12500)
    (1843/2000) (576/625)
    (18081/20000) (5651/6250)
    linBound_243 linBound_244 linBound_246 (by norm_num) (by norm_num)

theorem lumBound_C :
    ((15961/20000 : ℚ) : ℝ) ≤ getLuminance ⟨229, 231, 235⟩ ∧
      getLuminance ⟨229, 231, 235⟩ ≤ ((15963/20000 : ℚ) : ℝ) :=
  getLuminance_bounds_of 229 231 235 (19587/25000) (39179/50000)
    (79909/100000) (39959/50000)
    (8307/10000) (2077/2500)
    (15961/20000) (15963/20000)
    linBound_229 linBound_231 linBound_235 (by norm_num) (by norm_num)

theorem lumBound_D :
    ((66253/100000 : ℚ) : ℝ) ≤ getLuminance ⟨209, 213, 219⟩ ∧
      getLuminance ⟨209, 213, 219⟩ ≤ ((33131/50000 : ℚ) : ℝ) :=
  getLuminance_bounds_of 209 213 219 (63757/100000) (12753/20000)
    (33267/50000) (33271/50000)
    (70833/100000) (70841/100000)
    (66253/100000) (33131/50000)
    linBound_209 linBound_213 linBound_219 (by norm_num) (by norm_num)

theorem lumBound_E :
    ((8359/12500 : ℚ) : ℝ) ≤ getLuminance ⟨203, 213, 245⟩ ∧
      getLuminance ⟨203, 213, 245⟩ ≤ ((66881/100000 : ℚ) : ℝ) :=
  getLuminance_bounds_of 203 213 245 (11943/20000) (59723/100000)
    (33267/50000) (33271/50000)
    (11413/12500) (45657/50000)
    (8359/12500) (66881/100000)
    linBound_203 linBound_213 linBound_245 (by norm_num) (by norm_num)

theorem lumBound_F :
    ((8987/25000 : ℚ) : ℝ) ≤ getLuminance ⟨148, 163, 184⟩ ∧
      getLuminance ⟨148, 163, 184⟩ ≤ ((17977/50000 : ℚ) : ℝ) :=
  getLuminance_bounds_of 148 163 184 (7403/25000) (29617/100000)
    (18311/50000) (9157/25000)
    (47929/100000) (9587/20000)
    (8987/25000) (17977/50000)
    linBound_148 linBound_163 linBound_184 (by norm_num) (by norm_num)

/-- Monotonicity of the linearization on the power branch. -/
theorem toLinear_le_of_le (a b : ℚ) (ha : ¬((a / 255 : ℚ) ≤ 3928 / 100000))
    (hb : ¬((b / 255 : ℚ) ≤ 3928 / 100000)) (hab : a ≤ b) :
    toLinear a ≤ toLinear b := by
  simp only [toLinear]
  rw [if_neg ha, if_neg hb]
  have h0 : (0 : ℚ) ≤ (a / 255 + 55 / 1000) / (1055 / 1000) := by
    apply div_nonneg _ (by norm_num)
    have := not_le.mp ha
    linarith
  have hmono : ((a / 255 + 55 / 1000) / (1055 / 1000) : ℚ) ≤
      (b / 255 + 55 / 1000) / (1055 / 1000) := by
    apply div_le_div_of_nonneg_right _ (by norm_num)
    linarith
  exact Real.rpow_le_rpow (by exact_mod_cast h0) (by exact_mod_cast hmono) (by norm_num)

theorem lumB_le_lumA :
    getLuminance ⟨243, 244, 246⟩ ≤ getLuminance ⟨248, 250, 252⟩ := by
  simp only [getLuminance]
  have h1 := toLinear_le_of_le 243 248 (by norm_num) (by norm_num) (by norm_num)
  have h2 := toLinear_le_of_le 244 250 (by norm_num) (by norm_num) (by norm_num)
  have h3 := toLinear_le_of_le 246 252 (by norm_num) (by norm_num) (by norm_num)
  have e1 : (0.2126 : ℝ) = 2126 / 10000 := by norm_num
  have e2 : (0.7152 : ℝ) = 7152 / 10000 := by norm_num
  have e3 : (0.0722 : ℝ) = 722 / 10000 := by norm_num
  rw [e1, e2, e3]
  linarith

theorem lumF_le_lumB :
    getLuminance ⟨148, 163, 184⟩ ≤ getLuminance ⟨243, 244, 246⟩ := by
  simp only [getLuminance]
  have h1 := toLinear_le_of_le 148 243 (by norm_num) (by norm_num) (by norm_num)
  have h2 := toLinear_le_of_le 163 244 (by norm_num) (by norm_num) (by norm_num)
  have h3 := toLinear_le_of_le 184 246 (by norm_num) (by norm_num) (by norm_num)
  have e1 : (0.2126 : ℝ) = 2126 / 10000 := by norm_num
  have e2 : (0.7152 : ℝ) = 7152 / 10000 := by norm_num
  have e3 : (0.0722 : ℝ) = 722 / 10000 := by norm_num
  rw [e1, e2, e3]
  linarith

/-- The two-color palette of the C7 counterexample: the exact RGB values
of the ramp entries `#f3f4f6` and `#94a3b8`. -/
def palBF : List Rgb := [⟨243, 244, 246⟩, ⟨148, 163, 184⟩]

theorem minDistance_pair (cand c1 c2 : Rgb) :
    minDistance cand [c1, c2] = min (colorDistance cand c1) (colorDistance cand c2) := by
  rw [minDistance]
  simp

theorem avg_palBF :
    avgLuminance palBF = (getLuminance ⟨243, 244, 246⟩ + getLuminance ⟨148, 163, 184⟩) / 2 := by
  rw [avgLuminance]
  simp [palBF]

theorem dist_A_B : colorDistance ⟨248, 250, 252⟩ ⟨243, 244, 246⟩ = Real.sqrt 97 := by
  rw [colorDistance]
  norm_num

theorem dist_A_F : colorDistance ⟨248, 250, 252⟩ ⟨148, 163, 184⟩ = Real.sqrt 22193 := by
  rw [colorDistance]
  norm_num

theorem dist_B_B : colorDistance ⟨243, 244, 246⟩ ⟨243, 244, 246⟩ = 0 := by
  rw [colorDistance]
  norm_num

theorem dist_B_F : colorDistance ⟨243, 244, 246⟩ ⟨148, 163, 184⟩ = Real.sqrt 19430 := by
  rw [colorDistance]
  norm_num

theorem dist_C_B : colorDistance ⟨229, 231, 235⟩ ⟨243, 244, 246⟩ = Real.sqrt 486 := by
  rw [colorDistance]
  norm_num

theorem dist_C_F : colorDistance ⟨229, 231, 235⟩ ⟨148, 163, 184⟩ = Real.sqrt 13786 := by
  rw [colorDistance]
  norm_num

theorem dist_D_B : colorDistance ⟨209, 213, 219⟩ ⟨243, 244, 246⟩ = Real.sqrt 2846 := by
  rw [colorDistance]
  norm_num

theorem dist_D_F : colorDistance ⟨209, 213, 219⟩ ⟨148, 163, 184⟩ = Real.sqrt 7446 := by
  rw [colorDistance]
  norm_num

theorem dist_E_B : colorDistance ⟨203, 213, 245⟩ ⟨243, 244, 246⟩ = Real.sqrt 2562 := by
  rw [colorDistance]
  norm_num

theorem dist_E_F : colorDistance ⟨203, 213, 245⟩ ⟨148, 163, 184⟩ = Real.sqrt 9246 := by
  rw [colorDistance]
  norm_num

theorem dist_F_B : colorDistance ⟨148, 163, 184⟩ ⟨243, 244, 246⟩ = Real.sqrt 19430 := by
  rw [colorDistance]
  norm_num

theorem dist_F_F : colorDistance ⟨148, 163, 184⟩ ⟨148, 163, 184⟩ = 0 := by
  rw [colorDistance]
  norm_num

theorem minDistA : minDistance ⟨248, 250, 252⟩ palBF = Real.sqrt 97 := by
  rw [palBF, minDistance_pair, dist_A_B, dist_A_F]
  exact min_eq_left (Real.sqrt_le_sqrt (by norm_num))

theorem minDistB : minDistance ⟨243, 244, 246⟩ palBF = 0 := by
  rw [palBF, minDistance_pair, dist_B_B, dist_B_F]
  exact min_eq_left (Real.sqrt_nonneg _)

theorem minDistC : minDistance ⟨229, 231, 235⟩ palBF = Real.sqrt 486 := by
  rw [palBF, minDistance_pair, dist_C_B, dist_C_F]
  exact min_eq_left (Real.sqrt_le_sqrt (by norm_num))

theorem minDistD : minDistance ⟨209, 213, 219⟩ palBF = Real.sqrt 2846 := by
  rw [palBF, minDistance_pair, dist_D_B, dist_D_F]
  exact min_eq_left (Real.sqrt_le_sqrt (by norm_num))

theorem minDistE : minDistance ⟨203, 213, 245⟩ palBF = Real.sqrt 2562 := by
  rw [palBF, minDistance_pair, dist_E_B, dist_E_F]
  exact min_eq_left (Real.sqrt_le_sqrt (by norm_num))

theorem minDistF : minDistance ⟨148, 163, 184⟩ palBF = 0 := by
  rw [palBF, minDistance_pair, dist_F_B, dist_F_F]
  exact min_eq_right (Real.sqrt_nonneg _)

theorem sqrt97_lb : (98 / 10 : ℝ) ≤ Real.sqrt 97 := by
  calc (98 / 10 : ℝ) = Real.sqrt ((98 / 10) ^ 2) := (Real.sqrt_sq (by norm_num)).symm
    _ ≤ Real.sqrt 97 := Real.sqrt_le_sqrt (by norm_num)

theorem sqrt486_ub : Real.sqrt 486 ≤ (2205 / 100 : ℝ) := by
  calc Real.sqrt 486 ≤ Real.sqrt ((2205 / 100) ^ 2) := Real.sqrt_le_sqrt (by norm_num)
    _ = 2205 / 100 := Real.sqrt_sq (by norm_num)

theorem sqrt2846_ub : Real.sqrt 2846 ≤ (534 / 10 : ℝ) := by
  calc Real.sqrt 2846 ≤ Real.sqrt ((534 / 10) ^ 2) := Real.sqrt_le_sqrt (by norm_num)
    _ = 534 / 10 := Real.sqrt_sq (by norm_num)

theorem sqrt2562_ub : Real.sqrt 2562 ≤ (507 / 10 : ℝ) := by
  calc Real.sqrt 2562 ≤ Real.sqrt ((507 / 10) ^ 2) := Real.sqrt_le_sqrt (by norm_num)
    _ = 507 / 10 := Real.sqrt_sq (by norm_num)

theorem scoreB_le_scoreA :
    scoreCandidate palBF ⟨243, 244, 246⟩ ≤ scoreCandidate palBF ⟨248, 250, 252⟩ := by
  rw [scoreCandidate, scoreCandidate, minDistA, minDistB, avg_palBF]
  have hBA := lumB_le_lumA
  have hFB := lumF_le_lumB
  have habsB : |getLuminance ⟨243, 244, 246⟩ -
      (getLuminance ⟨243, 244, 246⟩ + getLuminance ⟨148, 163, 184⟩) / 2| =
      getLuminance ⟨243, 244, 246⟩ -
        (getLuminance ⟨243, 244, 246⟩ + getLuminance ⟨148, 163, 184⟩) / 2 :=
    abs_of_nonneg (by linarith)
  have habsA : |getLuminance ⟨248, 250, 252⟩ -
      (getLuminance ⟨243, 244, 246⟩ + getLuminance ⟨148, 163, 184⟩) / 2| =
      getLuminance ⟨248, 250, 252⟩ -
        (getLuminance ⟨243, 244, 246⟩ + getLuminance ⟨148, 163, 184⟩) / 2 :=
    abs_of_nonneg (by linarith)
  rw [habsB, habsA]
  have h97 := Real.sqrt_nonneg (97 : ℝ)
  linarith

theorem scoreF_le_scoreA :
    scoreCandidate palBF ⟨148, 163, 184⟩ ≤ scoreCandidate palBF ⟨248, 250, 252⟩ := by
  rw [scoreCandidate, scoreCandidate, minDistA, minDistF, avg_palBF]
  have hBA := lumB_le_lumA
  have hFB := lumF_le_lumB
  have habsF : |getLuminance ⟨148, 163, 184⟩ -
      (getLuminance ⟨243, 244, 246⟩ + getLuminance ⟨148, 163, 184⟩) / 2| =
      -(getLuminance ⟨148, 163, 184⟩ -
        (getLuminance ⟨243, 244, 246⟩ + getLuminance ⟨148, 163, 184⟩) / 2) :=
    abs_of_nonpos (by linarith)
  have habsA : |getLuminance ⟨248, 250, 252⟩ -
      (getLuminance ⟨243, 244, 246⟩ + getLuminance ⟨148, 163, 184⟩) / 2| =
      getLuminance ⟨248, 250, 252⟩ -
        (getLuminance ⟨243, 244, 246⟩ + getLuminance ⟨148, 163, 184⟩) / 2 :=
    abs_of_nonneg (by linarith)
  rw [habsF, habsA]
  have h97 := Real.sqrt_nonneg (97 : ℝ)
  linarith

theorem scoreC_le_scoreA :
    scoreCandidate palBF ⟨229, 231, 235⟩ ≤ scoreCandidate palBF ⟨248, 250, 252⟩ := by
  rw [scoreCandidate, scoreCandidate, minDistA, minDistC, avg_palBF]
  have hA1 := lumBound_A.1
  have hA2 := lumBound_A.2
  have hB1 := lumBound_B.1
  have hB2 := lumBound_B.2
  have hC1 := lumBound_C.1
  have hC2 := lumBound_C.2
  have hF1 := lumBound_F.1
  have hF2 := lumBound_F.2
  push_cast at hA1 hA2 hB1 hB2 hC1 hC2 hF1 hF2
  have habsC : |getLuminance ⟨229, 231, 235⟩ -
      (getLuminance ⟨243, 244, 246⟩ + getLuminance ⟨148, 163, 184⟩) / 2| ≤
      (16639 / 100000 : ℝ) :=
    abs_le.mpr ⟨by linarith, by linarith⟩
  have habsA : |getLuminance ⟨248, 250, 252⟩ -
      (getLuminance ⟨243, 244, 246⟩ + getLuminance ⟨148, 163, 184⟩) / 2| =
      getLuminance ⟨248, 250, 252⟩ -
        (getLuminance ⟨243, 244, 246⟩ + getLuminance ⟨148, 163, 184⟩) / 2 :=
    abs_of_nonneg (by linarith)
  rw [habsA]
  have h97 := sqrt97_lb
  have h486 := sqrt486_ub
  have habs0 := abs_nonneg (getLuminance ⟨229, 231, 235⟩ -
      (getLuminance ⟨243, 244, 246⟩ + getLuminance ⟨148, 163, 184⟩) / 2)
  nlinarith [habsC]

theorem scoreD_le_scoreA :
    scoreCandidate palBF ⟨209, 213, 219⟩ ≤ scoreCandidate palBF ⟨248, 250, 252⟩ := by
  rw [scoreCandidate, scoreCandidate, minDistA, minDistD, avg_palBF]
  have hA1 := lumBound_A.1
  have hB1 := lumBound_B.1
  have hB2 := lumBound_B.2
  have hD1 := lumBound_D.1
  have hD2 := lumBound_D.2
  have hF1 := lumBound_F.1
  have hF2 := lumBound_F.2
  push_cast at hA1 hB1 hB2 hD1 hD2 hF1 hF2
  have habsD : |getLuminance ⟨209, 213, 219⟩ -
      (getLuminance ⟨243, 244, 246⟩ + getLuminance ⟨148, 163, 184⟩) / 2| ≤
      (3086 / 100000 : ℝ) :=
    abs_le.mpr ⟨by linarith, by linarith⟩
  have habsA : |getLuminance ⟨248, 250, 252⟩ -
      (getLuminance ⟨243, 244, 246⟩ + getLuminance ⟨148, 163, 184⟩) / 2| =
      getLuminance ⟨248, 250, 252⟩ -
        (getLuminance ⟨243, 244, 246⟩ + getLuminance ⟨148, 163, 184⟩) / 2 :=
    abs_of_nonneg (by linarith)
  rw [habsA]
  have h97 := sqrt97_lb
  have h2846 := sqrt2846_ub
  nlinarith [habsD]

theorem scoreE_le_scoreA :
    scoreCandidate palBF ⟨203, 213, 245⟩ ≤ scoreCandidate palBF ⟨248, 250, 252⟩ := by
  rw [scoreCandidate, scoreCandidate, minDistA, minDistE, avg_palBF]
  have hA1 := lumBound_A.1
  have hB1 := lumBound_B.1
  have hB2 := lumBound_B.2
  have hE1 := lumBound_E.1
  have hE2 := lumBound_E.2
  have hF1 := lumBound_F.1
  have hF2 := lumBound_F.2
  push_cast at hA1 hB1 hB2 hE1 hE2 hF1 hF2
  have habsE : |getLuminance ⟨203, 213, 245⟩ -
      (getLuminance ⟨243, 244, 246⟩ + getLuminance ⟨148, 163, 184⟩) / 2| ≤
      (3705 / 100000 : ℝ) :=
    abs_le.mpr ⟨by linarith, by linarith⟩
  have habsA : |getLuminance ⟨248, 250, 252⟩ -
      (getLuminance ⟨243, 244, 246⟩ + getLuminance ⟨148, 163, 184⟩) / 2| =
      getLuminance ⟨248, 250, 252⟩ -
        (getLuminance ⟨243, 244, 246⟩ + getLuminance ⟨148, 163, 184⟩) / 2 :=
    abs_of_nonneg (by linarith)
  rw [habsA]
  have h97 := sqrt97_lb
  have h2562 := sqrt2562_ub
  nlinarith [habsE]

theorem pickBest_foldl_keep {α : Type} (score : α → ℝ) (b : α) (l : List α)
    (h : ∀ x ∈ l, score x ≤ score b) :
    l.foldl
      (fun st cand =>
        if ((score cand : ℝ) : EReal) > st.2 then (some cand, ((score cand : ℝ) : EReal))
        else st)
      (some b, ((score b : ℝ) : EReal)) = (some b, ((score b : ℝ) : EReal)) := by
  induction l with
  | nil => rfl
  | cons c t ih =>
    rw [List.foldl_cons]
    have hcb : ¬ (((score c : ℝ) : EReal) > (((some b, ((score b : ℝ) : EReal)) :
        Option α × EReal).2)) := by
      simp only [gt_iff_lt, not_lt]
      exact_mod_cast h c (by simp)
    rw [if_neg hcb]
    exact ih fun x hx => h x (by simp [hx])

theorem pickBest_foldl_max {α : Type} (score : α → ℝ) (l : List α) :
    ∀ b : α, ∃ b',
      l.foldl
        (fun st cand =>
          if ((score cand : ℝ) : EReal) > st.2 then (some cand, ((score cand : ℝ) : EReal))
          else st)
        (some b, ((score b : ℝ) : EReal)) = (some b', ((score b' : ℝ) : EReal)) ∧
      (b' = b ∨ b' ∈ l) ∧ score b ≤ score b' ∧ ∀ x ∈ l, score x ≤ score b' := by
  induction l with
  | nil => exact fun b => ⟨b, rfl, Or.inl rfl, le_refl _, by simp⟩
  | cons c t ih =>
    intro b
    rw [List.foldl_cons]
    by_cases hcb : ((score c : ℝ) : EReal) > (((some b, ((score b : ℝ) : EReal)) :
        Option α × EReal).2)
    · rw [if_pos hcb]
      obtain ⟨b', h1, h2, h3, h4⟩ := ih c
      have hbc : score b ≤ score c := by
        have := hcb
        simp only [gt_iff_lt] at this
        exact le_of_lt (by exact_mod_cast this)
      refine ⟨b', h1, ?_, le_trans hbc h3, ?_⟩
      · rcases h2 with rfl | h2
        · exact Or.inr (by simp)
        · exact Or.inr (by simp [h2])
      · intro x hx
        rcases List.mem_cons.mp hx with rfl | hx
        · exact h3
        · exact h4 x hx
    · rw [if_neg hcb]
      obtain ⟨b', h1, h2, h3, h4⟩ := ih b
      refine ⟨b', h1, ?_, h3, ?_⟩
      · rcases h2 with rfl | h2
        · exact Or.inl rfl
        · exact Or.inr (by simp [h2])
      · intro x hx
        rcases List.mem_cons.mp hx with rfl | hx
        · have hxb : score x ≤ score b := by
            have := hcb
            simp only [gt_iff_lt, not_lt] at this
            exact_mod_cast this
          exact le_trans hxb h3
        · exact h4 x hx

theorem pickBest_head {α : Type} (score : α → ℝ) (a : α) (l : List α)
    (h : ∀ x ∈ l, score x ≤ score a) : pickBest score (a :: l) = some a := by
  rw [pickBest, List.foldl_cons]
  have h0 : ((score a : ℝ) : EReal) > ((((a :: l).head?, (⊥ : EReal)) :
      Option α × EReal).2) := EReal.bot_lt_coe _
  rw [if_pos h0]
  rw [pickBest_foldl_keep score a l h]

theorem pickBest_max {α : Type} (score : α → ℝ) (a : α) (l : List α) :
    ∃ b, pickBest score (a :: l) = some b ∧ (b = a ∨ b ∈ l) ∧
      ∀ x ∈ a :: l, score x ≤ score b := by
  rw [pickBest, List.foldl_cons]
  have h0 : ((score a : ℝ) : EReal) > ((((a :: l).head?, (⊥ : EReal)) :
      Option α × EReal).2) := EReal.bot_lt_coe _
  rw [if_pos h0]
  obtain ⟨b', h1, h2, h3, h4⟩ := pickBest_foldl_max score l a
  refine ⟨b', by rw [h1], h2, ?_⟩
  intro x hx
  rcases List.mem_cons.mp hx with rfl | hx
  · exact h3
  · exact h4 x hx

theorem neutralCandidates2_eval :
    neutralCandidates2 =
      [("#f8fafc", ⟨248, 250, 252⟩), ("#f3f4f6", ⟨243, 244, 246⟩),
        ("#e5e7eb", ⟨229, 231, 235⟩), ("#d1d5db", ⟨209, 213, 219⟩),
        ("#cbd5f5", ⟨203, 213, 245⟩), ("#94a3b8", ⟨148, 163, 184⟩)] := by
  decide

theorem pickBest_palBF :
    pickBest (fun cand => scoreCandidate palBF cand.2) neutralCandidates2 =
      some ("#f8fafc", ⟨248, 250, 252⟩) := by
  rw [neutralCandidates2_eval]
  apply pickBest_head
  intro x hx
  fin_cases hx
  · exact scoreB_le_scoreA
  · exact scoreC_le_scoreA
  · exact scoreD_le_scoreA
  · exact scoreE_le_scoreA
  · exact scoreF_le_scoreA

theorem chooseNeutralColor_palBF : chooseNeutralColor palBF = "#f8fafc" := by
  have hstep : chooseNeutralColor palBF =
      ((pickBest (fun cand => scoreCandidate palBF cand.2) neutralCandidates2).map
        Prod.fst).getD "#f3f4f6" := rfl
  rw [hstep, pickBest_palBF]
  rfl

/-- C7 counterexample: on the two-colour palette `#f3f4f6, #94a3b8` the
part_004 selector `chooseNeutralColor` returns `#f8fafc`, yet the ramp
entry `#d1d5db` has a strictly larger minimum RGB distance to the palette
(`√2846` versus `√97`).  The returned candidate is therefore strictly
dominated on the distance criterion by another ramp entry: the selector
maximizes the combined score `0.8·minDistance + 260·|luminance − avg|`,
not the distance alone, and the claimed non-domination property fails. -/
theorem chooseNeutralColor_distance_dominated_counterexample :
    chooseNeutralColor palBF = "#f8fafc" ∧
    ("#f8fafc", (⟨248, 250, 252⟩ : Rgb)) ∈ neutralCandidates2 ∧
    ("#d1d5db", (⟨209, 213, 219⟩ : Rgb)) ∈ neutralCandidates2 ∧
    minDistance ⟨248, 250, 252⟩ palBF < minDistance ⟨209, 213, 219⟩ palBF := by
  refine ⟨chooseNeutralColor_palBF, by decide, by decide, ?_⟩
  rw [minDistA, minDistD]
  exact Real.sqrt_lt_sqrt (by norm_num) (by norm_num)

/-- C7 (amended): for every non-empty palette, `chooseNeutralColor`
returns a ramp candidate that maximizes the combined score
`minDistance·0.8 + |luminance − average palette luminance|·260` over the
whole candidate ramp (ties resolved toward the earlier entry); it does
not maximize the distance criterion alone. -/
theorem chooseNeutralColor_maximizes_score (colors : List Rgb)
    (hne : colors ≠ []) :
    ∃ b ∈ neutralCandidates2, chooseNeutralColor colors = b.1 ∧
      ∀ c ∈ neutralCandidates2,
        scoreCandidate colors c.2 ≤ scoreCandidate colors b.2 := by
  obtain ⟨c0, cs, rfl⟩ := List.exists_cons_of_ne_nil hne
  have hstep : chooseNeutralColor (c0 :: cs) =
      ((pickBest (fun cand => scoreCandidate (c0 :: cs) cand.2)
        neutralCandidates2).map Prod.fst).getD "#f3f4f6" := rfl
  have hc := neutralCandidates2_eval
  obtain ⟨b, hpick, hmemor, hmax⟩ := pickBest_max
      (fun cand => scoreCandidate (c0 :: cs) cand.2)
      ("#f8fafc", (⟨248, 250, 252⟩ : Rgb))
      [("#f3f4f6", ⟨243, 244, 246⟩), ("#e5e7eb", ⟨229, 231, 235⟩),
        ("#d1d5db", ⟨209, 213, 219⟩), ("#cbd5f5", ⟨203, 213, 245⟩),
        ("#94a3b8", ⟨148, 163, 184⟩)]
  rw [← hc] at hpick hmax
  refine ⟨b, ?_, ?_, hmax⟩
  · rw [hc]
    rcases hmemor with rfl | h
    · simp
    · simp [h]
  · rw [hstep, hpick]
    rfl

/-- Witness for the C7 amended theorem at the one-colour palette
`[black]`. -/
theorem chooseNeutralColor_maximizes_score_witness :
    ([(⟨0, 0, 0⟩ : Rgb)] ≠ []) ∧
    (∃ b ∈ neutralCandidates2, chooseNeutralColor [(⟨0, 0, 0⟩ : Rgb)] = b.1 ∧
      ∀ c ∈ neutralCandidates2,
        scoreCandidate [(⟨0, 0, 0⟩ : Rgb)] c.2 ≤
          scoreCandidate [(⟨0, 0, 0⟩ : Rgb)] b.2) :=
  ⟨List.cons_ne_nil _ _, chooseNeutralColor_maximizes_score [⟨0, 0, 0⟩]
    (List.cons_ne_nil _ _)⟩
